import Mathlib

/-!
# MCP23S17Lib: a shallow embedding of the SPI port-expander driver

The driver (`MCP23S17Lib.cpp`, `MCP23S17Lib.h`) is a C++ class whose methods
mutate a handful of `byte` shadow fields and talk to the Arduino core
(`pinMode`, `digitalWrite`, `SPI.begin`, `SPI.transfer`).

* `byte` values are natural numbers below 256; conversions of an `int`
  expression to `byte` are written `% 256`.
* `int` is the 16-bit two's-complement `int` of the AVR Arduino boards the
  library names (Uno, Mega); an `int` is represented by its residue modulo
  `2 ^ intBits`, on which `&`, `|`, `~` act bit by bit.
* The Arduino core is an explicit world: every call appends an `Event` to a
  trace and lets the device on the bus react; the byte that `SPI.transfer`
  returns is supplied by that device.
-/

namespace MCP23S17Lib

/-! ## The Arduino core as seen by the driver -/

/-- Arduino logic levels for `digitalWrite`. -/
inductive Level
  | LOW
  | HIGH
  deriving DecidableEq, Repr

/-- Arduino pin directions for `pinMode`. -/
inductive PinDir
  | INPUT
  | OUTPUT
  deriving DecidableEq, Repr

/-- One call into the Arduino core, as recorded on the bus trace. -/
inductive Event
  | pinMode (pin : Nat) (mode : PinDir)
  | digitalWrite (pin : Nat) (level : Level)
  | spiBegin
  | transfer (out : Nat)
  deriving DecidableEq, Repr

/-- The board and whatever is attached to the SPI bus.  `SS` and `MISO` are the
board's pin constants (declared by the Arduino core, not by this library);
`react` is how the attached device changes with every event and `reply` is the
byte it shifts out during a transfer. -/
structure Board (σ : Type) where
  SS : Nat
  MISO : Nat
  react : σ → Event → σ
  reply : σ → Nat → Nat

/-- Private and shadow fields of `class MCP23S17`, in declaration order. -/
structure MCP23S17 where
  SSline : Nat
  address : Nat
  readAddress : Nat
  writeAddress : Nat
  controlReg : Nat
  copyAMode : Nat
  copyAInvert : Nat
  copyAPullup : Nat
  copyBMode : Nat
  copyBInvert : Nat
  copyBPullup : Nat
  copyAIEnable : Nat
  copyAIControl : Nat
  copyAIPolarity : Nat
  copyBIEnable : Nat
  copyBIControl : Nat
  copyBIPolarity : Nat
  copyAData : Nat
  copyBData : Nat
  deriving DecidableEq, Repr

/-- The object together with the world it acts on. -/
structure Sys (σ : Type) where
  dev : MCP23S17
  trace : List Event
  chip : σ

variable {σ : Type}

/-- Record one core call: append it to the trace and let the device react. -/
def emit (B : Board σ) (e : Event) (s : Sys σ) : Sys σ :=
  { s with trace := s.trace ++ [e], chip := B.react s.chip e }

/-- Record a list of core calls, oldest first. -/
def emits (B : Board σ) (es : List Event) (s : Sys σ) : Sys σ :=
  { s with trace := s.trace ++ es, chip := es.foldl B.react s.chip }

/-- Arduino `pinMode(pin, mode)`. -/
def pinMode (B : Board σ) (pin : Nat) (mode : PinDir) (s : Sys σ) : Sys σ :=
  emit B (Event.pinMode pin mode) s

/-- Arduino `digitalWrite(pin, level)`. -/
def digitalWrite (B : Board σ) (pin : Nat) (level : Level) (s : Sys σ) : Sys σ :=
  emit B (Event.digitalWrite pin level) s

/-- Arduino `SPI.begin()`. -/
def SPI_begin (B : Board σ) (s : Sys σ) : Sys σ :=
  emit B Event.spiBegin s

/-- Arduino `SPI.transfer(out)`: shifts `out` to the device and returns the
byte shifted back. -/
def SPI_transfer (B : Board σ) (out : Nat) (s : Sys σ) : Nat × Sys σ :=
  (B.reply s.chip out % 256, emit B (Event.transfer out) s)

/-! ## Register numbers and configuration constants (`MCP23S17Lib.h`) -/

def RegIODIRA : Nat := 0x00
def RegIODIRB : Nat := 0x01
def RegIPOLA : Nat := 0x02
def RegIPOLB : Nat := 0x03
def RegGPINTENA : Nat := 0x04
def RegGPINTENB : Nat := 0x05
def RegDEFVALA : Nat := 0x06
def RegDEFVALB : Nat := 0x07
def RegINTCONA : Nat := 0x08
def RegINTCONB : Nat := 0x09
def RegIOCON : Nat := 0x0A
def RegGPPUA : Nat := 0x0C
def RegGPPUB : Nat := 0x0D
def RegINTFA : Nat := 0x0E
def RegINTFB : Nat := 0x0F
def RegINTCAPA : Nat := 0x10
def RegINTCAPB : Nat := 0x11
def RegGPIOA : Nat := 0x12
def RegGPIOB : Nat := 0x13
def RegOLATA : Nat := 0x14
def RegOLATB : Nat := 0x15

/-- Header constant `ConfAddEn = 0b00001000`: use address pins. -/
def ConfAddEn : Nat := 0b00001000

/-- Header constant `ConfAddDisEn = 0b00000000`: do not use address pins. -/
def ConfAddDisEn : Nat := 0b00000000

/-! ## `int` arithmetic -/

/-- Width of `int` (and of `unsigned int`) on the AVR boards. -/
def intBits : Nat := 16

/-- C `~x` on an `int`, on residues modulo `2 ^ intBits`. -/
def intNot (x : Nat) : Nat := 2 ^ intBits - 1 - x % 2 ^ intBits

/-- C `x << n` on an `int`, on residues modulo `2 ^ intBits`. -/
def intShl (x n : Nat) : Nat := (x <<< n) % 2 ^ intBits

/-! ## Private methods -/

/-- `MCP23S17::writeReg(reg, val)`: write an 8-bit register by address. -/
def writeReg (B : Board σ) (reg val : Nat) (s : Sys σ) : Sys σ :=
  let s1 := digitalWrite B s.dev.SSline Level.LOW s
  let s2 := (SPI_transfer B s1.dev.writeAddress s1).2
  let s3 := (SPI_transfer B reg s2).2
  let s4 := (SPI_transfer B val s3).2
  digitalWrite B s4.dev.SSline Level.HIGH s4

/-- `MCP23S17::readReg(reg)`: read an 8-bit register by address. -/
def readReg (B : Board σ) (reg : Nat) (s : Sys σ) : Nat × Sys σ :=
  let s1 := digitalWrite B s.dev.SSline Level.LOW s
  let s2 := (SPI_transfer B s1.dev.readAddress s1).2
  let s3 := (SPI_transfer B reg s2).2
  let r := SPI_transfer B 0 s3
  let val := r.1
  let s4 := r.2
  (val, digitalWrite B s4.dev.SSline Level.HIGH s4)

/-- `MCP23S17::setBit(orig, val, bit)`:
`return (orig & ~(0x01 << bit)) | ((val & 0x01) << bit);`
evaluated in `int` and converted to `byte`. -/
def setBit (orig val bit : Nat) : Nat :=
  ((orig &&& intNot (intShl 0x01 bit)) ||| intShl (val &&& 0x01) bit) % 256

/-- `MCP23S17::initDev(SSpin, addr)`. -/
def initDev (B : Board σ) (SSpin addr : Nat) (s : Sys σ) : Sys σ :=
  let s1 : Sys σ :=
    if SSpin = 0 then { s with dev := { s.dev with SSline := B.SS } }
    else { s with dev := { s.dev with SSline := SSpin } }
  let s2 : Sys σ := { s1 with dev := { s1.dev with
    address := addr
    readAddress := (0x41 ||| (addr <<< 1)) % 256
    writeAddress := (0x40 ||| (addr <<< 1)) % 256 } }
  let s3 := pinMode B s2.dev.SSline PinDir.OUTPUT s2
  let s4 := digitalWrite B s3.dev.SSline Level.HIGH s3
  let s5 := SPI_begin B s4
  let s6 := pinMode B B.MISO PinDir.INPUT s5
  let s7 := writeReg B RegIOCON s6.dev.controlReg s6
  { s7 with dev := { s7.dev with
    copyAMode := 0xFF
    copyAInvert := 0x00
    copyAPullup := 0x00
    copyBMode := 0xFF
    copyBInvert := 0x00
    copyBPullup := 0x00
    copyAIEnable := 0x00
    copyAIControl := 0x00
    copyAIPolarity := 0x00
    copyBIEnable := 0x00
    copyBIControl := 0x00
    copyBIPolarity := 0x00 } }

/-! ## Constructors -/

/-- A newly created object before any constructor body runs: the shadow fields
carry their in-class initialisers `= 0x00`; the five fields without an
initialiser (`SSline`, `address`, `readAddress`, `writeAddress`, `controlReg`)
are assigned by every constructor before they are read and start as 0 here. -/
def MCP23S17.fresh : MCP23S17 :=
  { SSline := 0, address := 0, readAddress := 0, writeAddress := 0, controlReg := 0
    copyAMode := 0x00, copyAInvert := 0x00, copyAPullup := 0x00
    copyBMode := 0x00, copyBInvert := 0x00, copyBPullup := 0x00
    copyAIEnable := 0x00, copyAIControl := 0x00, copyAIPolarity := 0x00
    copyBIEnable := 0x00, copyBIControl := 0x00, copyBIPolarity := 0x00
    copyAData := 0x00, copyBData := 0x00 }

/-- `MCP23S17::MCP23S17()`: the object of `s` is newly created, the world of
`s` is the one the constructor runs in. -/
def construct (B : Board σ) (s : Sys σ) : Sys σ :=
  let s1 : Sys σ := { s with dev := { MCP23S17.fresh with controlReg := ConfAddDisEn } }
  initDev B 0 0 s1

/-- `MCP23S17::MCP23S17(byte SSpin)`. -/
def constructSS (B : Board σ) (SSpin : Nat) (s : Sys σ) : Sys σ :=
  let s1 : Sys σ := { s with dev := { MCP23S17.fresh with controlReg := ConfAddDisEn } }
  initDev B SSpin 0 s1

/-- `MCP23S17::MCP23S17(byte SSpin, byte addr)`. -/
def constructSSAddr (B : Board σ) (SSpin addr : Nat) (s : Sys σ) : Sys σ :=
  let s1 : Sys σ := { s with dev := { MCP23S17.fresh with controlReg := ConfAddEn } }
  initDev B SSpin (addr &&& 0x7) s1

/-! ## Port configuration -/

/-- `MCP23S17::setupPortA(byte mode, byte pullup, byte invert)`: 8 bits. -/
def setupPortA (B : Board σ) (mode pullup invert : Nat) (s : Sys σ) : Sys σ :=
  let s1 : Sys σ := { s with dev := { s.dev with
    copyAMode := mode, copyAPullup := pullup, copyAInvert := invert } }
  let s2 := writeReg B RegIODIRA s1.dev.copyAMode s1
  let s3 := writeReg B RegGPPUA s2.dev.copyAPullup s2
  writeReg B RegIPOLA s3.dev.copyAInvert s3

/-- `MCP23S17::setupPortB(byte mode, byte pullup, byte invert)`: 8 bits. -/
def setupPortB (B : Board σ) (mode pullup invert : Nat) (s : Sys σ) : Sys σ :=
  let s1 : Sys σ := { s with dev := { s.dev with
    copyBMode := mode, copyBPullup := pullup, copyBInvert := invert } }
  let s2 := writeReg B RegIODIRB s1.dev.copyBMode s1
  let s3 := writeReg B RegGPPUB s2.dev.copyBPullup s2
  writeReg B RegIPOLB s3.dev.copyBInvert s3

/-- `MCP23S17::setupPortA(byte pin, byte mode, byte pullup, byte invert)`:
the one-bit overload. -/
def setupPortAPin (B : Board σ) (pin mode pullup invert : Nat) (s : Sys σ) : Sys σ :=
  if pin > 7 then s
  else
    let s1 : Sys σ := { s with dev := { s.dev with
      copyAMode := setBit s.dev.copyAMode mode pin } }
    let s2 : Sys σ := { s1 with dev := { s1.dev with
      copyAPullup := setBit s1.dev.copyAPullup pullup pin } }
    let s3 : Sys σ := { s2 with dev := { s2.dev with
      copyAInvert := setBit s2.dev.copyAInvert invert pin } }
    let s4 := writeReg B RegIODIRA s3.dev.copyAMode s3
    let s5 := writeReg B RegGPPUA s4.dev.copyAPullup s4
    writeReg B RegIPOLA s5.dev.copyAInvert s5

/-- `MCP23S17::setupPortB(byte pin, byte mode, byte pullup, byte invert)`:
the one-bit overload. -/
def setupPortBPin (B : Board σ) (pin mode pullup invert : Nat) (s : Sys σ) : Sys σ :=
  if pin > 7 then s
  else
    let s1 : Sys σ := { s with dev := { s.dev with
      copyBMode := setBit s.dev.copyBMode mode pin } }
    let s2 : Sys σ := { s1 with dev := { s1.dev with
      copyBPullup := setBit s1.dev.copyBPullup pullup pin } }
    let s3 : Sys σ := { s2 with dev := { s2.dev with
      copyBInvert := setBit s2.dev.copyBInvert invert pin } }
    let s4 := writeReg B RegIODIRB s3.dev.copyBMode s3
    let s5 := writeReg B RegGPPUB s4.dev.copyBPullup s4
    writeReg B RegIPOLB s5.dev.copyBInvert s5

/-! ## Port reads -/

/-- `MCP23S17::readPortA()`: read a byte from port A. -/
def readPortA (B : Board σ) (s : Sys σ) : Nat × Sys σ :=
  readReg B RegGPIOA s

/-- `MCP23S17::readPortA(byte pin)`: read a bit from port A. -/
def readPortAPin (B : Board σ) (pin : Nat) (s : Sys σ) : Nat × Sys σ :=
  if pin > 7 then (0, s)
  else
    let r := readReg B RegGPIOA s
    (((r.1 >>> pin) &&& 0x01) % 256, r.2)

/-- `MCP23S17::readPortB()`: read a byte from port B. -/
def readPortB (B : Board σ) (s : Sys σ) : Nat × Sys σ :=
  readReg B RegGPIOB s

/-- `MCP23S17::readPortB(byte pin)`: read a bit from port B. -/
def readPortBPin (B : Board σ) (pin : Nat) (s : Sys σ) : Nat × Sys σ :=
  if pin > 7 then (0, s)
  else
    let r := readReg B RegGPIOB s
    (((r.1 >>> pin) &&& 0x01) % 256, r.2)

/-! ## Port writes -/

/-- `MCP23S17::writePortA(byte data)`: write a byte to port A. -/
def writePortA (B : Board σ) (data : Nat) (s : Sys σ) : Sys σ :=
  let s1 : Sys σ := { s with dev := { s.dev with copyAData := data } }
  writeReg B RegGPIOA s1.dev.copyAData s1

/-- `MCP23S17::writePortA(byte pin, byte data)`: write a bit to port A. -/
def writePortAPin (B : Board σ) (pin data : Nat) (s : Sys σ) : Sys σ :=
  let s1 : Sys σ := { s with dev := { s.dev with
    copyAData := setBit s.dev.copyAData data pin } }
  writeReg B RegGPIOA s1.dev.copyAData s1

/-- `MCP23S17::writePortB(byte data)`: write a byte to port B. -/
def writePortB (B : Board σ) (data : Nat) (s : Sys σ) : Sys σ :=
  let s1 : Sys σ := { s with dev := { s.dev with copyBData := data } }
  writeReg B RegGPIOB s1.dev.copyBData s1

/-- `MCP23S17::writePortB(byte pin, byte data)`: write a bit to port B. -/
def writePortBPin (B : Board σ) (pin data : Nat) (s : Sys σ) : Sys σ :=
  let s1 : Sys σ := { s with dev := { s.dev with
    copyBData := setBit s.dev.copyBData data pin } }
  writeReg B RegGPIOB s1.dev.copyBData s1

/-! ## Sixteen-bit access -/

/-- `MCP23S17::readAll()`:
`return (readReg(RegGPIOB) << 8) + readReg(RegGPIOA);`
The operands are evaluated in the order they are written (C++ itself leaves the
order of the two calls to the compiler); the sum is an `int` converted to
`unsigned int`. -/
def readAll (B : Board σ) (s : Sys σ) : Nat × Sys σ :=
  let rb := readReg B RegGPIOB s
  let ra := readReg B RegGPIOA rb.2
  ((intShl rb.1 8 + ra.1) % 2 ^ intBits, ra.2)

/-- `MCP23S17::writeAll(unsigned int data)`: write 16 bits to ports A and B. -/
def writeAll (B : Board σ) (data : Nat) (s : Sys σ) : Sys σ :=
  let s1 : Sys σ := { s with dev := { s.dev with copyAData := (data &&& 0xff) % 256 } }
  let s2 : Sys σ := { s1 with dev := { s1.dev with copyBData := ((data >>> 8) &&& 0xff) % 256 } }
  let s3 := writeReg B RegGPIOA s2.dev.copyAData s2
  writeReg B RegGPIOB s3.dev.copyBData s3

/-! ## Interrupt configuration -/

/-- `MCP23S17::setInterruptsA(byte enable, byte control, byte compare)`. -/
def setInterruptsA (B : Board σ) (enable control compare : Nat) (s : Sys σ) : Sys σ :=
  let s1 : Sys σ := { s with dev := { s.dev with
    copyAIEnable := enable, copyAIControl := control, copyAIPolarity := compare } }
  let s2 := writeReg B RegGPINTENA enable s1
  let s3 := writeReg B RegINTCONA control s2
  writeReg B RegDEFVALA compare s3

/-- `MCP23S17::setInterruptsB(byte enable, byte control, byte compare)`. -/
def setInterruptsB (B : Board σ) (enable control compare : Nat) (s : Sys σ) : Sys σ :=
  let s1 : Sys σ := { s with dev := { s.dev with
    copyBIEnable := enable, copyBIControl := control, copyBIPolarity := compare } }
  let s2 := writeReg B RegGPINTENB enable s1
  let s3 := writeReg B RegINTCONB control s2
  writeReg B RegDEFVALB compare s3

/-- `MCP23S17::setInterruptsA(byte pin, byte enable, byte control, byte compare)`:
the one-pin overload. -/
def setInterruptsAPin (B : Board σ) (pin enable control compare : Nat) (s : Sys σ) : Sys σ :=
  let s1 : Sys σ := { s with dev := { s.dev with
    copyAIEnable := setBit s.dev.copyAIEnable enable pin } }
  let s2 : Sys σ := { s1 with dev := { s1.dev with
    copyAIControl := setBit s1.dev.copyAIControl control pin } }
  let s3 : Sys σ := { s2 with dev := { s2.dev with
    copyAIPolarity := setBit s2.dev.copyAIPolarity compare pin } }
  let s4 := writeReg B RegGPINTENA s3.dev.copyAIEnable s3
  let s5 := writeReg B RegINTCONA s4.dev.copyAIControl s4
  writeReg B RegDEFVALA s5.dev.copyAIPolarity s5

/-- `MCP23S17::setInterruptsB(byte pin, byte enable, byte control, byte compare)`:
the one-pin overload. -/
def setInterruptsBPin (B : Board σ) (pin enable control compare : Nat) (s : Sys σ) : Sys σ :=
  let s1 : Sys σ := { s with dev := { s.dev with
    copyBIEnable := setBit s.dev.copyBIEnable enable pin } }
  let s2 : Sys σ := { s1 with dev := { s1.dev with
    copyBIControl := setBit s1.dev.copyBIControl control pin } }
  let s3 : Sys σ := { s2 with dev := { s2.dev with
    copyBIPolarity := setBit s2.dev.copyBIPolarity compare pin } }
  let s4 := writeReg B RegGPINTENB s3.dev.copyBIEnable s3
  let s5 := writeReg B RegINTCONB s4.dev.copyBIControl s4
  writeReg B RegDEFVALB s5.dev.copyBIPolarity s5

/-- `MCP23S17::configInterrupts(byte mirror, byte polarity, byte oDrain)`:
`controlReg = (controlReg & 10111001) | ((mirror & 0x01) << 6)
  | ((polarity & 0x01) << 1) | ((oDrain & 0x01) << 1);`
The literal `10111001` is decimal; all operands are non-negative and below
`2 ^ 24`, so the expression is evaluated without overflow and then converted to
`byte`. -/
def configInterrupts (B : Board σ) (mirror polarity oDrain : Nat) (s : Sys σ) : Sys σ :=
  let s1 : Sys σ := { s with dev := { s.dev with
    controlReg := ((s.dev.controlReg &&& 10111001) ||| ((mirror &&& 0x01) <<< 6)
      ||| ((polarity &&& 0x01) <<< 1) ||| ((oDrain &&& 0x01) <<< 1)) % 256 } }
  writeReg B RegIOCON s1.dev.controlReg s1

/-! ## Interrupt status and output latches -/

/-- `MCP23S17::getInterruptFlagA()`. -/
def getInterruptFlagA (B : Board σ) (s : Sys σ) : Nat × Sys σ :=
  readReg B RegINTFA s

/-- `MCP23S17::getInterruptFlagB()`. -/
def getInterruptFlagB (B : Board σ) (s : Sys σ) : Nat × Sys σ :=
  readReg B RegINTFB s

/-- `MCP23S17::getInterruptCaptureA()`. -/
def getInterruptCaptureA (B : Board σ) (s : Sys σ) : Nat × Sys σ :=
  readReg B RegINTCAPA s

/-- `MCP23S17::getInterruptCaptureB()`. -/
def getInterruptCaptureB (B : Board σ) (s : Sys σ) : Nat × Sys σ :=
  readReg B RegINTCAPB s

/-- `MCP23S17::readPortAOutputLatch()`. -/
def readPortAOutputLatch (B : Board σ) (s : Sys σ) : Nat × Sys σ :=
  readReg B RegOLATA s

/-- `MCP23S17::readPortBOutputLatch()`. -/
def readPortBOutputLatch (B : Board σ) (s : Sys σ) : Nat × Sys σ :=
  readReg B RegOLATB s

/-! ## Bus frames -/

/-- The five core calls of one register write with select line `ss`, opcode
`op`, register `reg` and value `val`. -/
def writeFrame (ss op reg val : Nat) : List Event :=
  [Event.digitalWrite ss Level.LOW, Event.transfer op, Event.transfer reg,
   Event.transfer val, Event.digitalWrite ss Level.HIGH]

/-- The five core calls of one register read with select line `ss`, opcode
`op` and register `reg`; the third transfer carries the dummy byte 0. -/
def readFrame (ss op reg : Nat) : List Event :=
  [Event.digitalWrite ss Level.LOW, Event.transfer op, Event.transfer reg,
   Event.transfer 0, Event.digitalWrite ss Level.HIGH]

/-- The part of a read frame that precedes the dummy transfer. -/
def readHead (ss op reg : Nat) : List Event :=
  [Event.digitalWrite ss Level.LOW, Event.transfer op, Event.transfer reg]

/-! ## A loopback register store

The register store of the specification's testable properties: a device on the
bus that decodes frames on its select line `cs`; the third byte of a frame
whose opcode has the R/W bit clear is stored in the addressed register, and the
third transfer of a frame whose opcode has the R/W bit set returns the addressed
register. -/

/-- State of the loopback register store. -/
structure RegStore where
  cs : Nat
  regs : Nat → Nat
  selected : Bool
  frame : List Nat

/-- How the register store changes with a bus event. -/
def RegStore.react (c : RegStore) : Event → RegStore
  | Event.digitalWrite pin Level.LOW =>
      if pin = c.cs then { c with selected := true, frame := [] } else c
  | Event.digitalWrite pin Level.HIGH =>
      if pin = c.cs then { c with selected := false, frame := [] } else c
  | Event.transfer out =>
      if c.selected then
        match c.frame with
        | [op, reg] =>
            if op % 2 = 0 then
              { c with regs := fun r => if r = reg then out else c.regs r
                       frame := [op, reg, out] }
            else { c with frame := [op, reg, out] }
        | fr => { c with frame := fr ++ [out] }
      else c
  | _ => c

/-- The byte the register store shifts out during a transfer. -/
def RegStore.reply (c : RegStore) (_out : Nat) : Nat :=
  if c.selected then
    match c.frame with
    | [op, reg] => if op % 2 = 1 then c.regs reg else 0
    | _ => 0
  else 0

/-- A board with pin constants `ss`, `miso` and a loopback register store
attached. -/
def loopBoard (ss miso : Nat) : Board RegStore :=
  { SS := ss, MISO := miso, react := RegStore.react, reply := RegStore.reply }

/-- Register contents after power-on reset: `IODIRA` and `IODIRB` are `0xFF`,
every other register is `0x00`. -/
def powerOnRegs : Nat → Nat :=
  fun r => if r = RegIODIRA ∨ r = RegIODIRB then 0xFF else 0x00

/-- A register store on select line `cs` just after power-on. -/
def RegStore.powerOn (cs : Nat) : RegStore :=
  { cs := cs, regs := powerOnRegs, selected := false, frame := [] }

/-- The driver can talk to the register store: the store listens on the
driver's select line and the opcodes carry the R/W bit. -/
@[reducible] def Attached (s : Sys RegStore) : Prop :=
  s.chip.cs = s.dev.SSline ∧ s.dev.writeAddress % 2 = 0 ∧ s.dev.readAddress % 2 = 1

/-- An Uno-like board (`SS = 10`, `MISO = 12`) with a register store. -/
def demoBoard : Board RegStore := loopBoard 10 12

/-- The world before the sketch creates its expander object. -/
def demoBoot : Sys RegStore :=
  { dev := MCP23S17.fresh, trace := [], chip := RegStore.powerOn 10 }

/-- The state right after `MCP23S17 dev;`. -/
def demoSys : Sys RegStore := construct demoBoard demoBoot

/-! ## Specification vocabulary -/

/-- Byte `W` is byte `V` with only bit `pin` replaced by bit 0 of `arg`: bit
`pin` of `W` is bit 0 of `arg` and every other bit of `W` is that bit of `V`. -/
def PatchesBit (V pin arg W : Nat) : Prop :=
  ∀ i, W.testBit i = if i = pin then arg.testBit 0 else V.testBit i

/-- The core calls `initDev` makes before its register write, for select line
`ss`. -/
def initEvents (B : Board σ) (ss : Nat) : List Event :=
  [Event.pinMode ss PinDir.OUTPUT, Event.digitalWrite ss Level.HIGH, Event.spiBegin,
   Event.pinMode B.MISO PinDir.INPUT]

/-- The per-port shadows hold the chip's power-on values: direction `0xFF`,
everything else `0x00`, for both ports. -/
@[reducible] def PowerOnShadows (d : MCP23S17) : Prop :=
  (d.copyAMode = 0xFF ∧ d.copyBMode = 0xFF) ∧
  (d.copyAPullup = 0x00 ∧ d.copyBPullup = 0x00) ∧
  (d.copyAInvert = 0x00 ∧ d.copyBInvert = 0x00) ∧
  (d.copyAData = 0x00 ∧ d.copyBData = 0x00) ∧
  (d.copyAIEnable = 0x00 ∧ d.copyBIEnable = 0x00) ∧
  (d.copyAIControl = 0x00 ∧ d.copyBIControl = 0x00) ∧
  (d.copyAIPolarity = 0x00 ∧ d.copyBIPolarity = 0x00)

/-! ## Sequences of public operations -/

/-- A call of one of the three constructors. -/
inductive Ctor
  | plain
  | withSS (SSpin : Nat)
  | withSSAddr (SSpin addr : Nat)
  deriving DecidableEq, Repr

/-- Run a constructor call. -/
def Ctor.run (B : Board σ) : Ctor → Sys σ → Sys σ
  | Ctor.plain, s => construct B s
  | Ctor.withSS SSpin, s => constructSS B SSpin s
  | Ctor.withSSAddr SSpin addr, s => constructSSAddr B SSpin addr s

/-- The select line a constructor call names: the board's `SS` for the
constructor without arguments and for `SSpin = 0`. -/
def Ctor.selectLine (B : Board σ) : Ctor → Nat
  | Ctor.plain => B.SS
  | Ctor.withSS SSpin => if SSpin = 0 then B.SS else SSpin
  | Ctor.withSSAddr SSpin _ => if SSpin = 0 then B.SS else SSpin

/-- Whether a constructor call enables the hardware address pins: only
`MCP23S17(SSpin, addr)` does. -/
def Ctor.usesAddress : Ctor → Bool
  | Ctor.plain => false
  | Ctor.withSS _ => false
  | Ctor.withSSAddr _ _ => true

/-- A call of one of the public methods of `class MCP23S17`, with its
arguments. -/
inductive Op
  | setupPortA (mode pullup invert : Nat)
  | setupPortB (mode pullup invert : Nat)
  | setupPortAPin (pin mode pullup invert : Nat)
  | setupPortBPin (pin mode pullup invert : Nat)
  | readPortA
  | readPortAPin (pin : Nat)
  | readPortB
  | readPortBPin (pin : Nat)
  | writePortA (data : Nat)
  | writePortAPin (pin data : Nat)
  | writePortB (data : Nat)
  | writePortBPin (pin data : Nat)
  | readAll
  | writeAll (data : Nat)
  | readPortAOutputLatch
  | readPortBOutputLatch
  | setInterruptsA (enable control compare : Nat)
  | setInterruptsB (enable control compare : Nat)
  | setInterruptsAPin (pin enable control compare : Nat)
  | setInterruptsBPin (pin enable control compare : Nat)
  | configInterrupts (mirror polarity oDrain : Nat)
  | getInterruptFlagA
  | getInterruptFlagB
  | getInterruptCaptureA
  | getInterruptCaptureB
  deriving DecidableEq, Repr

/-- Run a method call; the value a read returns goes to the caller and is
dropped here. -/
def Op.run (B : Board σ) : Op → Sys σ → Sys σ
  | Op.setupPortA m p i, s => MCP23S17Lib.setupPortA B m p i s
  | Op.setupPortB m p i, s => MCP23S17Lib.setupPortB B m p i s
  | Op.setupPortAPin n m p i, s => MCP23S17Lib.setupPortAPin B n m p i s
  | Op.setupPortBPin n m p i, s => MCP23S17Lib.setupPortBPin B n m p i s
  | Op.readPortA, s => (MCP23S17Lib.readPortA B s).2
  | Op.readPortAPin n, s => (MCP23S17Lib.readPortAPin B n s).2
  | Op.readPortB, s => (MCP23S17Lib.readPortB B s).2
  | Op.readPortBPin n, s => (MCP23S17Lib.readPortBPin B n s).2
  | Op.writePortA d, s => MCP23S17Lib.writePortA B d s
  | Op.writePortAPin n d, s => MCP23S17Lib.writePortAPin B n d s
  | Op.writePortB d, s => MCP23S17Lib.writePortB B d s
  | Op.writePortBPin n d, s => MCP23S17Lib.writePortBPin B n d s
  | Op.readAll, s => (MCP23S17Lib.readAll B s).2
  | Op.writeAll d, s => MCP23S17Lib.writeAll B d s
  | Op.readPortAOutputLatch, s => (MCP23S17Lib.readPortAOutputLatch B s).2
  | Op.readPortBOutputLatch, s => (MCP23S17Lib.readPortBOutputLatch B s).2
  | Op.setInterruptsA e c d, s => MCP23S17Lib.setInterruptsA B e c d s
  | Op.setInterruptsB e c d, s => MCP23S17Lib.setInterruptsB B e c d s
  | Op.setInterruptsAPin n e c d, s => MCP23S17Lib.setInterruptsAPin B n e c d s
  | Op.setInterruptsBPin n e c d, s => MCP23S17Lib.setInterruptsBPin B n e c d s
  | Op.configInterrupts m p o, s => MCP23S17Lib.configInterrupts B m p o s
  | Op.getInterruptFlagA, s => (MCP23S17Lib.getInterruptFlagA B s).2
  | Op.getInterruptFlagB, s => (MCP23S17Lib.getInterruptFlagB B s).2
  | Op.getInterruptCaptureA, s => (MCP23S17Lib.getInterruptCaptureA B s).2
  | Op.getInterruptCaptureB, s => (MCP23S17Lib.getInterruptCaptureB B s).2

/-- Run a finite sequence of method calls, first call first. -/
def runOps (B : Board σ) (ops : List Op) (s : Sys σ) : Sys σ :=
  ops.foldl (fun acc op => op.run B acc) s

/-- Every shadow equals the content of its register in the store. -/
@[reducible] def ShadowsMatch (s : Sys RegStore) : Prop :=
  s.dev.controlReg = s.chip.regs 0x0A ∧
  (s.dev.copyAMode = s.chip.regs 0x00 ∧ s.dev.copyBMode = s.chip.regs 0x01) ∧
  (s.dev.copyAPullup = s.chip.regs 0x0C ∧ s.dev.copyBPullup = s.chip.regs 0x0D) ∧
  (s.dev.copyAInvert = s.chip.regs 0x02 ∧ s.dev.copyBInvert = s.chip.regs 0x03) ∧
  (s.dev.copyAData = s.chip.regs 0x12 ∧ s.dev.copyBData = s.chip.regs 0x13) ∧
  (s.dev.copyAIEnable = s.chip.regs 0x04 ∧ s.dev.copyBIEnable = s.chip.regs 0x05) ∧
  (s.dev.copyAIControl = s.chip.regs 0x08 ∧ s.dev.copyBIControl = s.chip.regs 0x09) ∧
  (s.dev.copyAIPolarity = s.chip.regs 0x06 ∧ s.dev.copyBIPolarity = s.chip.regs 0x07)

/-! ## A bus monitor

A passive device on the bus that decodes the frames on select line `cs` and
keeps, for every frame that reaches its third byte, the opcode, the register
address and the data byte. -/

/-- State of the bus monitor. -/
structure BusMonitor where
  cs : Nat
  selected : Bool
  frame : List Nat
  seen : List (Nat × Nat × Nat)

/-- How the monitor changes with a bus event. -/
def BusMonitor.react (c : BusMonitor) : Event → BusMonitor
  | Event.digitalWrite pin Level.LOW =>
      if pin = c.cs then { c with selected := true, frame := [] } else c
  | Event.digitalWrite pin Level.HIGH =>
      if pin = c.cs then { c with selected := false, frame := [] } else c
  | Event.transfer out =>
      if c.selected then
        match c.frame with
        | [op, reg] => { c with frame := [op, reg, out], seen := c.seen ++ [(op, reg, out)] }
        | fr => { c with frame := fr ++ [out] }
      else c
  | _ => c

/-- A board with pin constants `ss`, `miso` and a bus monitor attached; the
monitor never drives the data line. -/
def monitorBoard (ss miso : Nat) : Board BusMonitor :=
  { SS := ss, MISO := miso, react := BusMonitor.react, reply := fun _ _ => 0 }

/-- A monitor on select line `cs` that has seen nothing yet. -/
def BusMonitor.idle (cs : Nat) : BusMonitor :=
  { cs := cs, selected := false, frame := [], seen := [] }

/-- The registers of port A. -/
def portARegs : List Nat :=
  [RegIODIRA, RegIPOLA, RegGPINTENA, RegDEFVALA, RegINTCONA, RegGPPUA, RegINTFA, RegINTCAPA,
   RegGPIOA, RegOLATA]

/-- The registers of port B. -/
def portBRegs : List Nat :=
  [RegIODIRB, RegIPOLB, RegGPINTENB, RegDEFVALB, RegINTCONB, RegGPPUB, RegINTFB, RegINTCAPB,
   RegGPIOB, RegOLATB]

/-- The method calls that name port A. -/
def Op.isPortA : Op → Bool
  | Op.setupPortA _ _ _ => true
  | Op.setupPortAPin _ _ _ _ => true
  | Op.readPortA => true
  | Op.readPortAPin _ => true
  | Op.writePortA _ => true
  | Op.writePortAPin _ _ => true
  | Op.readPortAOutputLatch => true
  | Op.setInterruptsA _ _ _ => true
  | Op.setInterruptsAPin _ _ _ _ => true
  | Op.getInterruptFlagA => true
  | Op.getInterruptCaptureA => true
  | _ => false

/-- The method calls that name port B. -/
def Op.isPortB : Op → Bool
  | Op.setupPortB _ _ _ => true
  | Op.setupPortBPin _ _ _ _ => true
  | Op.readPortB => true
  | Op.readPortBPin _ => true
  | Op.writePortB _ => true
  | Op.writePortBPin _ _ => true
  | Op.readPortBOutputLatch => true
  | Op.setInterruptsB _ _ _ => true
  | Op.setInterruptsBPin _ _ _ _ => true
  | Op.getInterruptFlagB => true
  | Op.getInterruptCaptureB => true
  | _ => false

/-- The port-A shadows of two objects agree. -/
@[reducible] def SamePortA (d e : MCP23S17) : Prop :=
  d.copyAMode = e.copyAMode ∧ d.copyAPullup = e.copyAPullup ∧ d.copyAInvert = e.copyAInvert ∧
  d.copyAData = e.copyAData ∧ d.copyAIEnable = e.copyAIEnable ∧
  d.copyAIControl = e.copyAIControl ∧ d.copyAIPolarity = e.copyAIPolarity

/-- The port-B shadows of two objects agree. -/
@[reducible] def SamePortB (d e : MCP23S17) : Prop :=
  d.copyBMode = e.copyBMode ∧ d.copyBPullup = e.copyBPullup ∧ d.copyBInvert = e.copyBInvert ∧
  d.copyBData = e.copyBData ∧ d.copyBIEnable = e.copyBIEnable ∧
  d.copyBIControl = e.copyBIControl ∧ d.copyBIPolarity = e.copyBIPolarity

/-- An IOCON byte that keeps the register map interleaved and the addressing
mode chosen at construction: bit 7 (BANK) and bits 5, 4, 2, 0 are 0 and bit 3
(address-pin enable) is 1 exactly when the constructor with an address was
used. -/
@[reducible] def ControlOk (c : Ctor) (v : Nat) : Prop :=
  v < 256 ∧ v.testBit 7 = false ∧ v.testBit 5 = false ∧ v.testBit 4 = false ∧
  v.testBit 2 = false ∧ v.testBit 0 = false ∧ v.testBit 3 = c.usesAddress

/-- The state right after `MCP23S17 dev;` on an Uno-like board with a bus
monitor. -/
def demoMonitored : Sys BusMonitor :=
  construct (monitorBoard 10 12)
    { dev := MCP23S17.fresh, trace := [], chip := BusMonitor.idle 10 }

/-! ## Basic facts about the primitives -/

theorem writeReg_eq (B : Board σ) (reg val : Nat) (s : Sys σ) :
    writeReg B reg val s = emits B (writeFrame s.dev.SSline s.dev.writeAddress reg val) s := by
  simp [writeReg, emits, emit, digitalWrite, SPI_transfer, writeFrame]

theorem readReg_snd (B : Board σ) (reg : Nat) (s : Sys σ) :
    (readReg B reg s).2 = emits B (readFrame s.dev.SSline s.dev.readAddress reg) s := by
  simp [readReg, emits, emit, digitalWrite, SPI_transfer, readFrame]

theorem readReg_fst (B : Board σ) (reg : Nat) (s : Sys σ) :
    (readReg B reg s).1 =
      B.reply ((readHead s.dev.SSline s.dev.readAddress reg).foldl B.react s.chip) 0 % 256 := by
  simp [readReg, emit, digitalWrite, SPI_transfer, readHead]

theorem emits_dev (B : Board σ) (es : List Event) (s : Sys σ) : (emits B es s).dev = s.dev := rfl

theorem emits_emits (B : Board σ) (es fs : List Event) (s : Sys σ) :
    emits B fs (emits B es s) = emits B (es ++ fs) s := by
  simp [emits, List.foldl_append]

theorem intShl_one (b : Nat) (hb : b < 16) : intShl 1 b = 2 ^ b := by
  unfold intShl intBits
  rw [Nat.one_shiftLeft]
  exact Nat.mod_eq_of_lt (Nat.pow_lt_pow_right (by decide) hb)

theorem testBit_intNot_two_pow (b i : Nat) (hb : b < 16) :
    (intNot (2 ^ b)).testBit i = (decide (i < 16) && !decide (b = i)) := by
  have h : 2 ^ b < 2 ^ 16 := Nat.pow_lt_pow_right (by decide) hb
  unfold intNot intBits
  rw [Nat.mod_eq_of_lt h, Nat.sub_sub, Nat.add_comm, Nat.testBit_two_pow_sub_succ h,
    Nat.testBit_two_pow]

theorem testBit_setBit (orig val b i : Nat) (hb : b ≤ 7) :
    (setBit orig val b).testBit i =
      (decide (i < 8) && (if i = b then val.testBit 0 else orig.testBit i)) := by
  have hb16 : b < 16 := by omega
  unfold setBit
  rw [intShl_one b hb16]
  have h256 : (256 : Nat) = 2 ^ 8 := by norm_num
  rw [h256, Nat.testBit_mod_two_pow, Nat.testBit_or, Nat.testBit_and, testBit_intNot_two_pow b i hb16]
  unfold intShl intBits
  rw [Nat.testBit_mod_two_pow, Nat.testBit_shiftLeft, Nat.testBit_and]
  by_cases hi : i = b
  · subst hi
    have h8 : i < 8 := by omega
    have h16 : i < 16 := by omega
    simp [h8, h16]
  · by_cases h8 : i < 8
    · have h16 : i < 16 := by omega
      have hne : ¬ b = i := fun h => hi h.symm
      by_cases hge : i ≥ b
      · have hpos : i - b ≠ 0 := by omega
        have h1 : Nat.testBit 1 (i - b) = false := by
          cases hk : i - b with
          | zero => exact absurd hk hpos
          | succ k => simp [Nat.testBit_succ]
        simp [hi, h8, h16, hne, h1]
      · simp [hi, h8, h16, hne, hge]
    · simp [h8]

theorem setBit_patches (V arg pin : Nat) (hpin : pin ≤ 7) (hV : V < 256) :
    PatchesBit V pin arg (setBit V arg pin) := by
  intro i
  rw [testBit_setBit V arg pin i hpin]
  by_cases h8 : i < 8
  · simp [h8]
  · have hne : i ≠ pin := by omega
    have hlt : V < 2 ^ i :=
      Nat.lt_of_lt_of_le hV (by
        have : (256 : Nat) = 2 ^ 8 := by norm_num
        rw [this]
        exact Nat.pow_le_pow_right (by decide) (by omega))
    simp [h8, hne, Nat.testBit_lt_two_pow hlt]

theorem setBit_lt (orig val b : Nat) : setBit orig val b < 256 := by
  unfold setBit
  exact Nat.mod_lt _ (by decide)

/-! ## Verified properties -/

/-- C8: for every bit index `b` in 0..7, `setBit orig val b` is a byte whose bit
`b` is bit 0 of `val` and whose every other bit `i` in 0..7 is bit `i` of
`orig`; two values of `val` with the same bit 0 give the same result. -/
theorem setBit_replaces_one_bit (orig val b : Nat) (hb : b ≤ 7) :
    setBit orig val b < 256 ∧
    (setBit orig val b).testBit b = val.testBit 0 ∧
    (∀ i, i ≤ 7 → i ≠ b → (setBit orig val b).testBit i = orig.testBit i) ∧
    (∀ val2, val2.testBit 0 = val.testBit 0 → setBit orig val2 b = setBit orig val b) := by
  refine ⟨setBit_lt orig val b, ?_, ?_, ?_⟩
  · rw [testBit_setBit orig val b b hb]
    have h8 : b < 8 := by omega
    simp [h8]
  · intro i hi hne
    rw [testBit_setBit orig val b i hb]
    have h8 : i < 8 := by omega
    simp [h8, hne]
  · intro val2 h
    apply Nat.eq_of_testBit_eq
    intro i
    rw [testBit_setBit orig val2 b i hb, testBit_setBit orig val b i hb, h]

/-- Witness for C8 at `orig = 0xA5`, `val = 0xFE`, `b = 3`. -/
theorem setBit_replaces_one_bit_witness :
    (3 : Nat) ≤ 7 ∧ setBit 0xA5 0xFE 3 < 256 ∧
    (setBit 0xA5 0xFE 3).testBit 3 = (0xFE : Nat).testBit 0 ∧
    (∀ i, i ≤ 7 → i ≠ 3 → (setBit 0xA5 0xFE 3).testBit i = (0xA5 : Nat).testBit i) ∧
    (∀ val2, val2.testBit 0 = (0xFE : Nat).testBit 0 → setBit 0xA5 val2 3 = setBit 0xA5 0xFE 3) :=
  ⟨by decide, setBit_replaces_one_bit 0xA5 0xFE 3 (by decide)⟩

/-- C1: for a pin in 0..7 the one-bit `setupPortA` (and `setupPortB`) replaces
only bit `pin` of the direction, pull-up and invert shadows by bit 0 of `mode`,
`pullup`, `invert`, changes nothing else in the object, and then issues exactly
three register writes carrying the new shadows, to IODIR, GPPU and IPOL in that
order.  After `setupPortA(0x0F, 0x00, 0x00)` and `setupPortA(3, 1, 1, 0)` the
direction shadow is `0x0F` and the pull-up shadow is `0x08`. -/
theorem setupPortPin_patches_then_writes (B : Board σ) (s : Sys σ)
    (pin mode pullup invert : Nat) (hpin : pin ≤ 7)
    (hA : s.dev.copyAMode < 256 ∧ s.dev.copyAPullup < 256 ∧ s.dev.copyAInvert < 256)
    (hB : s.dev.copyBMode < 256 ∧ s.dev.copyBPullup < 256 ∧ s.dev.copyBInvert < 256) :
    (∃ m p v, PatchesBit s.dev.copyAMode pin mode m ∧
        PatchesBit s.dev.copyAPullup pin pullup p ∧
        PatchesBit s.dev.copyAInvert pin invert v ∧
        setupPortAPin B pin mode pullup invert s =
          emits B (writeFrame s.dev.SSline s.dev.writeAddress 0x00 m ++
                   writeFrame s.dev.SSline s.dev.writeAddress 0x0C p ++
                   writeFrame s.dev.SSline s.dev.writeAddress 0x02 v)
            { s with dev := { s.dev with copyAMode := m, copyAPullup := p, copyAInvert := v } }) ∧
    (∃ m p v, PatchesBit s.dev.copyBMode pin mode m ∧
        PatchesBit s.dev.copyBPullup pin pullup p ∧
        PatchesBit s.dev.copyBInvert pin invert v ∧
        setupPortBPin B pin mode pullup invert s =
          emits B (writeFrame s.dev.SSline s.dev.writeAddress 0x01 m ++
                   writeFrame s.dev.SSline s.dev.writeAddress 0x0D p ++
                   writeFrame s.dev.SSline s.dev.writeAddress 0x03 v)
            { s with dev := { s.dev with copyBMode := m, copyBPullup := p, copyBInvert := v } }) ∧
    ((setupPortAPin B 3 1 1 0 (setupPortA B 0x0F 0x00 0x00 s)).dev.copyAMode = 0x0F ∧
     (setupPortAPin B 3 1 1 0 (setupPortA B 0x0F 0x00 0x00 s)).dev.copyAPullup = 0x08) := by
  have hnot : ¬ pin > 7 := by omega
  refine ⟨⟨_, _, _, setBit_patches _ mode pin hpin hA.1, setBit_patches _ pullup pin hpin hA.2.1,
      setBit_patches _ invert pin hpin hA.2.2, ?_⟩,
    ⟨_, _, _, setBit_patches _ mode pin hpin hB.1, setBit_patches _ pullup pin hpin hB.2.1,
      setBit_patches _ invert pin hpin hB.2.2, ?_⟩, ?_, ?_⟩
  · simp [setupPortAPin, hnot, writeReg_eq, emits_emits, emits_dev, RegIODIRA, RegGPPUA, RegIPOLA]
  · simp [setupPortBPin, hnot, writeReg_eq, emits_emits, emits_dev, RegIODIRB, RegGPPUB, RegIPOLB]
  · simp [setupPortAPin, setupPortA, writeReg_eq, emits_dev]
    decide
  · simp [setupPortAPin, setupPortA, writeReg_eq, emits_dev]
    decide

/-- Witness for C1: the one-bit setup of pin 3 on the state right after
construction on the demonstration board. -/
theorem setupPortPin_patches_then_writes_witness :
    (3 : Nat) ≤ 7 ∧
    (demoSys.dev.copyAMode < 256 ∧ demoSys.dev.copyAPullup < 256 ∧
      demoSys.dev.copyAInvert < 256) ∧
    (demoSys.dev.copyBMode < 256 ∧ demoSys.dev.copyBPullup < 256 ∧
      demoSys.dev.copyBInvert < 256) ∧
    ((∃ m p v, PatchesBit demoSys.dev.copyAMode 3 1 m ∧
        PatchesBit demoSys.dev.copyAPullup 3 1 p ∧
        PatchesBit demoSys.dev.copyAInvert 3 0 v ∧
        setupPortAPin demoBoard 3 1 1 0 demoSys =
          emits demoBoard (writeFrame demoSys.dev.SSline demoSys.dev.writeAddress 0x00 m ++
                   writeFrame demoSys.dev.SSline demoSys.dev.writeAddress 0x0C p ++
                   writeFrame demoSys.dev.SSline demoSys.dev.writeAddress 0x02 v)
            { demoSys with dev := { demoSys.dev with
                copyAMode := m, copyAPullup := p, copyAInvert := v } }) ∧
     (∃ m p v, PatchesBit demoSys.dev.copyBMode 3 1 m ∧
        PatchesBit demoSys.dev.copyBPullup 3 1 p ∧
        PatchesBit demoSys.dev.copyBInvert 3 0 v ∧
        setupPortBPin demoBoard 3 1 1 0 demoSys =
          emits demoBoard (writeFrame demoSys.dev.SSline demoSys.dev.writeAddress 0x01 m ++
                   writeFrame demoSys.dev.SSline demoSys.dev.writeAddress 0x0D p ++
                   writeFrame demoSys.dev.SSline demoSys.dev.writeAddress 0x03 v)
            { demoSys with dev := { demoSys.dev with
                copyBMode := m, copyBPullup := p, copyBInvert := v } }) ∧
     ((setupPortAPin demoBoard 3 1 1 0
          (setupPortA demoBoard 0x0F 0x00 0x00 demoSys)).dev.copyAMode = 0x0F ∧
      (setupPortAPin demoBoard 3 1 1 0
          (setupPortA demoBoard 0x0F 0x00 0x00 demoSys)).dev.copyAPullup = 0x08)) :=
  ⟨by decide, by decide, by decide,
    setupPortPin_patches_then_writes demoBoard demoSys 3 1 1 0
      (by decide) (by decide) (by decide)⟩

/-- C2: for a pin in 0..7 the one-bit `writePortA` (and `writePortB`) replaces
only bit `pin` of the port's data shadow by bit 0 of `data`, changes nothing
else in the object, and issues exactly one register write, to the port's GPIO
register, carrying the new shadow. -/
theorem writePortPin_patches_then_writes (B : Board σ) (s : Sys σ) (pin data : Nat)
    (hpin : pin ≤ 7) (hA : s.dev.copyAData < 256) (hB : s.dev.copyBData < 256) :
    (∃ w, PatchesBit s.dev.copyAData pin data w ∧
        writePortAPin B pin data s =
          emits B (writeFrame s.dev.SSline s.dev.writeAddress 0x12 w)
            { s with dev := { s.dev with copyAData := w } }) ∧
    (∃ w, PatchesBit s.dev.copyBData pin data w ∧
        writePortBPin B pin data s =
          emits B (writeFrame s.dev.SSline s.dev.writeAddress 0x13 w)
            { s with dev := { s.dev with copyBData := w } }) := by
  refine ⟨⟨_, setBit_patches _ data pin hpin hA, ?_⟩, ⟨_, setBit_patches _ data pin hpin hB, ?_⟩⟩
  · simp [writePortAPin, writeReg_eq, RegGPIOA]
  · simp [writePortBPin, writeReg_eq, RegGPIOB]

/-- Witness for C2: writing a 1 to pin 5 on the state right after
construction on the demonstration board. -/
theorem writePortPin_patches_then_writes_witness :
    (5 : Nat) ≤ 7 ∧ demoSys.dev.copyAData < 256 ∧ demoSys.dev.copyBData < 256 ∧
    ((∃ w, PatchesBit demoSys.dev.copyAData 5 1 w ∧
        writePortAPin demoBoard 5 1 demoSys =
          emits demoBoard (writeFrame demoSys.dev.SSline demoSys.dev.writeAddress 0x12 w)
            { demoSys with dev := { demoSys.dev with copyAData := w } }) ∧
     (∃ w, PatchesBit demoSys.dev.copyBData 5 1 w ∧
        writePortBPin demoBoard 5 1 demoSys =
          emits demoBoard (writeFrame demoSys.dev.SSline demoSys.dev.writeAddress 0x13 w)
            { demoSys with dev := { demoSys.dev with copyBData := w } })) :=
  ⟨by decide, by decide, by decide,
    writePortPin_patches_then_writes demoBoard demoSys 5 1 (by decide) (by decide) (by decide)⟩

/-- C3: for a pin index above 7 the one-bit `setupPortA` / `setupPortB` return
the state they were given (no shadow changes, no event on the bus), and the
one-bit `readPortA` / `readPortB` return 0 with the state unchanged. -/
theorem pin_above_seven_is_ignored (B : Board σ) (s : Sys σ)
    (pin mode pullup invert : Nat) (hpin : 7 < pin) :
    setupPortAPin B pin mode pullup invert s = s ∧
    setupPortBPin B pin mode pullup invert s = s ∧
    readPortAPin B pin s = (0, s) ∧
    readPortBPin B pin s = (0, s) := by
  have h : pin > 7 := hpin
  simp [setupPortAPin, setupPortBPin, readPortAPin, readPortBPin, h]

/-- Witness for C3: pin index 8 on the state right after construction on the
demonstration board. -/
theorem pin_above_seven_is_ignored_witness :
    (7 : Nat) < 8 ∧
    (setupPortAPin demoBoard 8 1 1 1 demoSys = demoSys ∧
     setupPortBPin demoBoard 8 1 1 1 demoSys = demoSys ∧
     readPortAPin demoBoard 8 demoSys = (0, demoSys) ∧
     readPortBPin demoBoard 8 demoSys = (0, demoSys)) :=
  ⟨by decide, pin_above_seven_is_ignored demoBoard demoSys 8 1 1 1 (by decide)⟩

/-- C4: against the loopback register store, for every 16-bit `x`,
`writeAll(x)` followed by `readAll()` returns `x`; after `writeAll(x)` register
`0x12` (GPIOA) holds `x & 0xFF` and register `0x13` (GPIOB) holds
`(x >> 8) & 0xFF`. -/
theorem writeAll_readAll_loopback (ss miso : Nat) (s : Sys RegStore) (x : Nat)
    (hx : x < 65536) (hs : Attached s) :
    (readAll (loopBoard ss miso) (writeAll (loopBoard ss miso) x s)).1 = x ∧
    (writeAll (loopBoard ss miso) x s).chip.regs 0x12 = x &&& 0xFF ∧
    (writeAll (loopBoard ss miso) x s).chip.regs 0x13 = (x >>> 8) &&& 0xFF := by
  obtain ⟨hcs, hw, hr⟩ := hs
  have hlo : x &&& 255 = x % 256 := Nat.and_pow_two_sub_one_eq_mod x 8
  have hhi : (x >>> 8) &&& 255 = x / 256 % 256 := by
    rw [Nat.shiftRight_eq_div_pow]
    exact Nat.and_pow_two_sub_one_eq_mod (x / 2 ^ 8) 8
  simp [readAll, writeAll, writeReg, readReg, digitalWrite, SPI_transfer, emit, loopBoard,
    RegStore.react, RegStore.reply, hcs, hw, hr, RegGPIOA, RegGPIOB, intShl, intBits, hlo, hhi]
  rw [Nat.shiftLeft_eq]
  omega

/-- Witness for C4: `x = 0xBEEF` on the state right after construction on the
demonstration board. -/
theorem writeAll_readAll_loopback_witness :
    (0xBEEF : Nat) < 65536 ∧ Attached demoSys ∧
    ((readAll (loopBoard 10 12) (writeAll (loopBoard 10 12) 0xBEEF demoSys)).1 = 0xBEEF ∧
     (writeAll (loopBoard 10 12) 0xBEEF demoSys).chip.regs 0x12 = 0xBEEF &&& 0xFF ∧
     (writeAll (loopBoard 10 12) 0xBEEF demoSys).chip.regs 0x13 = (0xBEEF >>> 8) &&& 0xFF) :=
  ⟨by decide, by decide,
    writeAll_readAll_loopback 10 12 demoSys 0xBEEF (by decide) (by decide)⟩

/-- C5: `MCP23S17(SSpin, a)` with `a` in 0..7 yields `readOpcode = 0x41 | (a << 1)`
and `writeOpcode = 0x40 | (a << 1)`, the pattern `0b0100AAAR` with `AAA = a`,
`R = 1` for read and `R = 0` for write; for any byte `addr` the constructor uses
`addr & 0x7` for `a`; the constructors without an address yield `0x41` and
`0x40`. -/
theorem constructor_opcodes (B : Board σ) (s : Sys σ) (SSpin : Nat) :
    (∀ a, a ≤ 7 →
      (constructSSAddr B SSpin a s).dev.readAddress = 0x41 ||| (a <<< 1) ∧
      (constructSSAddr B SSpin a s).dev.writeAddress = 0x40 ||| (a <<< 1) ∧
      (constructSSAddr B SSpin a s).dev.readAddress = 0b01000000 + 2 * a + 1 ∧
      (constructSSAddr B SSpin a s).dev.writeAddress = 0b01000000 + 2 * a + 0) ∧
    (∀ addr,
      (constructSSAddr B SSpin addr s).dev.readAddress = 0x41 ||| ((addr &&& 0x7) <<< 1) ∧
      (constructSSAddr B SSpin addr s).dev.writeAddress = 0x40 ||| ((addr &&& 0x7) <<< 1)) ∧
    ((construct B s).dev.readAddress = 0x41 ∧ (construct B s).dev.writeAddress = 0x40) ∧
    ((constructSS B SSpin s).dev.readAddress = 0x41 ∧
      (constructSS B SSpin s).dev.writeAddress = 0x40) := by
  have key : ∀ k, k ≤ 7 →
      (0x41 ||| (k <<< 1)) % 256 = 0x41 ||| (k <<< 1) ∧
      (0x40 ||| (k <<< 1)) % 256 = 0x40 ||| (k <<< 1) ∧
      (0x41 ||| (k <<< 1)) = 0b01000000 + 2 * k + 1 ∧
      (0x40 ||| (k <<< 1)) = 0b01000000 + 2 * k + 0 := by
    intro k hk
    interval_cases k <;> decide
  have hdev : ∀ addr,
      (constructSSAddr B SSpin addr s).dev.readAddress = (0x41 ||| ((addr &&& 0x7) <<< 1)) % 256 ∧
      (constructSSAddr B SSpin addr s).dev.writeAddress =
        (0x40 ||| ((addr &&& 0x7) <<< 1)) % 256 := by
    intro addr
    constructor <;> rfl
  refine ⟨?_, ?_, ⟨rfl, rfl⟩, ⟨rfl, rfl⟩⟩
  · intro a ha
    have hand : a &&& 0x7 = a := by
      interval_cases a <;> decide
    obtain ⟨h1, h2⟩ := hdev a
    rw [hand] at h1 h2
    obtain ⟨k1, k2, k3, k4⟩ := key a ha
    exact ⟨h1.trans k1, h2.trans k2, (h1.trans k1).trans k3, (h2.trans k2).trans k4⟩
  · intro addr
    obtain ⟨h1, h2⟩ := hdev addr
    obtain ⟨k1, k2, _, _⟩ := key (addr &&& 0x7) Nat.and_le_right
    exact ⟨h1.trans k1, h2.trans k2⟩

/-- Witness for C5: chip address 5 on select line 9. -/
theorem constructor_opcodes_witness :
    (5 : Nat) ≤ 7 ∧
    (constructSSAddr demoBoard 9 5 demoBoot).dev.readAddress = 0x4B ∧
    (constructSSAddr demoBoard 9 5 demoBoot).dev.writeAddress = 0x4A :=
  ⟨by decide,
    ((constructor_opcodes demoBoard demoBoot 9).1 5 (by decide)).1,
    ((constructor_opcodes demoBoard demoBoot 9).1 5 (by decide)).2.1⟩

/-- C6: every constructor issues, after preparing the select line and the SPI
port, exactly one register write, to IOCON (`0x0A`), with value `0x00` for
`MCP23S17()` and `MCP23S17(SSpin)` and `0x08` for `MCP23S17(SSpin, addr)`; the
control shadow equals that value and all per-port shadows hold the power-on
defaults. -/
theorem construction_writes_IOCON_once (B : Board σ) (s : Sys σ) (SSpin addr : Nat) :
    (construct B s =
        emits B (initEvents B B.SS ++ writeFrame B.SS 0x40 0x0A 0x00)
          { s with dev := (construct B s).dev } ∧
      (construct B s).dev.controlReg = 0x00 ∧ PowerOnShadows (construct B s).dev) ∧
    (constructSS B SSpin s =
        emits B (initEvents B (if SSpin = 0 then B.SS else SSpin) ++
                 writeFrame (if SSpin = 0 then B.SS else SSpin) 0x40 0x0A 0x00)
          { s with dev := (constructSS B SSpin s).dev } ∧
      (constructSS B SSpin s).dev.controlReg = 0x00 ∧
      PowerOnShadows (constructSS B SSpin s).dev) ∧
    (constructSSAddr B SSpin addr s =
        emits B (initEvents B (if SSpin = 0 then B.SS else SSpin) ++
                 writeFrame (if SSpin = 0 then B.SS else SSpin)
                   (0x40 ||| ((addr &&& 0x7) <<< 1)) 0x0A 0x08)
          { s with dev := (constructSSAddr B SSpin addr s).dev } ∧
      (constructSSAddr B SSpin addr s).dev.controlReg = 0x08 ∧
      PowerOnShadows (constructSSAddr B SSpin addr s).dev) := by
  have hop : (0x40 ||| ((addr &&& 0x7) <<< 1)) % 256 = 0x40 ||| ((addr &&& 0x7) <<< 1) := by
    have hk : addr &&& 0x7 ≤ 7 := Nat.and_le_right
    generalize addr &&& 0x7 = k at hk
    interval_cases k <;> decide
  refine ⟨⟨?_, rfl, by simp [PowerOnShadows, construct, initDev, MCP23S17.fresh, writeReg_eq,
      emits_dev, pinMode, digitalWrite, SPI_begin, emit]⟩, ⟨?_, ?_, ?_⟩, ⟨?_, ?_, ?_⟩⟩
  · simp [construct, initDev, MCP23S17.fresh, writeReg_eq, emits, pinMode, digitalWrite,
      SPI_begin, emit, initEvents, writeFrame, RegIOCON, ConfAddDisEn]
  · by_cases h : SSpin = 0 <;>
      simp [constructSS, initDev, MCP23S17.fresh, writeReg_eq, emits, pinMode, digitalWrite,
        SPI_begin, emit, initEvents, writeFrame, RegIOCON, ConfAddDisEn, h]
  · by_cases h : SSpin = 0 <;>
      simp [constructSS, initDev, MCP23S17.fresh, writeReg_eq, emits, pinMode, digitalWrite,
        SPI_begin, emit, ConfAddDisEn, h]
  · by_cases h : SSpin = 0 <;>
      simp [PowerOnShadows, constructSS, initDev, MCP23S17.fresh, writeReg_eq, emits, pinMode,
        digitalWrite, SPI_begin, emit, h]
  · by_cases h : SSpin = 0 <;>
      simp [constructSSAddr, initDev, MCP23S17.fresh, writeReg_eq, emits, pinMode, digitalWrite,
        SPI_begin, emit, initEvents, writeFrame, RegIOCON, ConfAddEn, h, hop]
  · by_cases h : SSpin = 0 <;>
      simp [constructSSAddr, initDev, MCP23S17.fresh, writeReg_eq, emits, pinMode, digitalWrite,
        SPI_begin, emit, ConfAddEn, h]
  · by_cases h : SSpin = 0 <;>
      simp [PowerOnShadows, constructSSAddr, initDev, MCP23S17.fresh, writeReg_eq, emits, pinMode,
        digitalWrite, SPI_begin, emit, h]

/-- C7: `writeReg(r, v)` appends to the bus trace exactly the five events
select LOW, transfer(writeOpcode), transfer(r), transfer(v), select HIGH;
`readReg(r)` appends exactly select LOW, transfer(readOpcode), transfer(r),
transfer(0), select HIGH and returns the byte the device shifts out during the
third transfer; neither changes a field of the object. -/
theorem register_access_frames (B : Board σ) (s : Sys σ) (r v : Nat) :
    ((writeReg B r v s).trace = s.trace ++
        [Event.digitalWrite s.dev.SSline Level.LOW, Event.transfer s.dev.writeAddress,
         Event.transfer r, Event.transfer v, Event.digitalWrite s.dev.SSline Level.HIGH] ∧
      (writeReg B r v s).dev = s.dev) ∧
    ((readReg B r s).2.trace = s.trace ++
        [Event.digitalWrite s.dev.SSline Level.LOW, Event.transfer s.dev.readAddress,
         Event.transfer r, Event.transfer 0, Event.digitalWrite s.dev.SSline Level.HIGH] ∧
      (readReg B r s).2.dev = s.dev) ∧
    (readReg B r s).1 =
      B.reply (B.react (B.react (B.react s.chip (Event.digitalWrite s.dev.SSline Level.LOW))
        (Event.transfer s.dev.readAddress)) (Event.transfer r)) 0 % 256 := by
  refine ⟨⟨?_, rfl⟩, ⟨?_, rfl⟩, rfl⟩
  · simp [writeReg, emit, digitalWrite, SPI_transfer]
  · simp [readReg, emit, digitalWrite, SPI_transfer]

/-- C9, as the code behaves: `configInterrupts` puts both `polarity` and
`oDrain` on bit 1.  On a newly constructed object `configInterrupts(0, 0, 1)`
and `configInterrupts(0, 1, 0)` both store `0x02` in the control shadow and
write `0x02` to IOCON; hence no three pairwise different bit positions carry
`mirror`, `polarity` and `oDrain` while the other five bits are kept. -/
theorem configInterrupts_polarity_openDrain_collide (B : Board σ) (s : Sys σ) :
    (configInterrupts B 0 0 1 (construct B s)).dev.controlReg = 0x02 ∧
    (configInterrupts B 0 1 0 (construct B s)).dev.controlReg = 0x02 ∧
    (configInterrupts B 0 0 1 (construct B s)).trace =
      (construct B s).trace ++ writeFrame B.SS 0x40 0x0A 0x02 ∧
    ¬ ∃ pm pp po : Nat, pm ≤ 7 ∧ pp ≤ 7 ∧ po ≤ 7 ∧ pm ≠ pp ∧ pm ≠ po ∧ pp ≠ po ∧
        ∀ (t : Sys σ) (mirror polarity oDrain : Nat), t.dev.controlReg < 256 →
          ((configInterrupts B mirror polarity oDrain t).dev.controlReg.testBit pm
              = mirror.testBit 0 ∧
           (configInterrupts B mirror polarity oDrain t).dev.controlReg.testBit pp
              = polarity.testBit 0 ∧
           (configInterrupts B mirror polarity oDrain t).dev.controlReg.testBit po
              = oDrain.testBit 0 ∧
           ∀ i, i ≤ 7 → i ≠ pm → i ≠ pp → i ≠ po →
             (configInterrupts B mirror polarity oDrain t).dev.controlReg.testBit i
               = t.dev.controlReg.testBit i) := by
  have h0 : (construct B s).dev.controlReg = 0 := rfl
  have h001 : (configInterrupts B 0 0 1 (construct B s)).dev.controlReg = 0x02 := by
    simp [configInterrupts, writeReg_eq, emits_dev, h0]
  have h010 : (configInterrupts B 0 1 0 (construct B s)).dev.controlReg = 0x02 := by
    simp [configInterrupts, writeReg_eq, emits_dev, h0]
  have hc : (construct B s).dev.controlReg < 256 := by
    show (0 : Nat) < 256
    decide
  refine ⟨h001, h010, ?_, ?_⟩
  · simp [configInterrupts, writeReg_eq, emits, writeFrame, RegIOCON, h0]
    refine ⟨rfl, rfl, rfl⟩
  · rintro ⟨pm, pp, po, -, hpp, hpo, -, -, hne, H⟩
    have hp := (H (construct B s) 0 1 0 hc).2.1
    have ho := (H (construct B s) 0 0 1 hc).2.2.1
    rw [h010] at hp
    rw [h001] at ho
    have hpp1 : pp = 1 := by
      interval_cases pp <;> first | rfl | exact absurd hp (by decide)
    have hpo1 : po = 1 := by
      interval_cases po <;> first | rfl | exact absurd ho (by decide)
    exact hne (hpp1.trans hpo1.symm)

/-- C10: `readAll()` issues exactly two register reads, GPIOB (`0x13`) first and
GPIOA (`0x12`) second, and returns `(B << 8) | A` where `B` and `A` are the
bytes the device returns in the first and in the second read: port A is the low
byte and port B the high byte. -/
theorem readAll_reads_B_then_A (B : Board σ) (s : Sys σ) :
    ∃ A Bv : Nat,
      Bv = B.reply ((readHead s.dev.SSline s.dev.readAddress 0x13).foldl B.react s.chip) 0
            % 256 ∧
      A = B.reply ((readFrame s.dev.SSline s.dev.readAddress 0x13 ++
              readHead s.dev.SSline s.dev.readAddress 0x12).foldl B.react s.chip) 0 % 256 ∧
      (readAll B s).1 = (Bv <<< 8) ||| A ∧
      (readAll B s).1 % 256 = A ∧
      (readAll B s).1 / 256 = Bv ∧
      (readAll B s).2 =
        emits B (readFrame s.dev.SSline s.dev.readAddress 0x13 ++
                 readFrame s.dev.SSline s.dev.readAddress 0x12) s := by
  have hval : ∀ a b : Nat, a < 256 → b < 256 →
      (intShl b 8 + a) % 2 ^ intBits = (b <<< 8) ||| a ∧
      ((intShl b 8 + a) % 2 ^ intBits) % 256 = a ∧
      ((intShl b 8 + a) % 2 ^ intBits) / 256 = b := by
    intro a b ha hb
    have hor : (b <<< 8) ||| a = 256 * b + a := by
      have h := Nat.mul_add_lt_is_or (show a < 2 ^ 8 from ha) b
      rw [Nat.shiftLeft_eq, Nat.mul_comm b (2 ^ 8), ← h]
    have hshl : intShl b 8 = 256 * b := by
      unfold intShl intBits
      rw [Nat.shiftLeft_eq]
      omega
    rw [hor, hshl]
    unfold intBits
    omega
  have h1 : (readReg B 0x13 s).1 < 256 := Nat.mod_lt _ (by decide)
  have h2 : (readReg B 0x12 (readReg B 0x13 s).2).1 < 256 := Nat.mod_lt _ (by decide)
  obtain ⟨k1, k2, k3⟩ := hval _ _ h2 h1
  have hsnd : (readReg B 0x13 s).2 = emits B (readFrame s.dev.SSline s.dev.readAddress 0x13) s :=
    readReg_snd B 0x13 s
  have hA : (readReg B 0x12 (readReg B 0x13 s).2).1 =
      B.reply ((readFrame s.dev.SSline s.dev.readAddress 0x13 ++
        readHead s.dev.SSline s.dev.readAddress 0x12).foldl B.react s.chip) 0 % 256 := by
    rw [readReg_fst, hsnd]
    simp [emits, List.foldl_append]
  have hB : (readReg B 0x13 s).1 =
      B.reply ((readHead s.dev.SSline s.dev.readAddress 0x13).foldl B.react s.chip) 0 % 256 :=
    readReg_fst B 0x13 s
  refine ⟨_, _, rfl, rfl, ?_, ?_, ?_, ?_⟩
  · rw [← hA, ← hB]
    exact k1
  · rw [← hA]
    exact k2
  · rw [← hB]
    exact k3
  · show (readReg B 0x12 (readReg B 0x13 s).2).2 = _
    rw [readReg_snd, hsnd, emits_emits]
    rfl

/-! ## Further facts about `setBit` -/

theorem setBit_of_ge_eight (orig val b : Nat) (hb : 8 ≤ b) (ho : orig < 256) :
    setBit orig val b = orig := by
  have h256 : (256 : Nat) = 2 ^ 8 := by norm_num
  apply Nat.eq_of_testBit_eq
  intro i
  unfold setBit
  rw [h256, Nat.testBit_mod_two_pow, Nat.testBit_or, Nat.testBit_and]
  by_cases h8 : i < 8
  · have hshift : (intShl (val &&& 0x01) b).testBit i = false := by
      unfold intShl intBits
      rw [Nat.testBit_mod_two_pow, Nat.testBit_shiftLeft]
      have : ¬ i ≥ b := by omega
      simp [this]
    have hmask : (intNot (intShl 0x01 b)).testBit i = true := by
      by_cases hb16 : b < 16
      · rw [intShl_one b hb16, testBit_intNot_two_pow b i hb16]
        have h16 : i < 16 := by omega
        have hne : ¬ b = i := by omega
        simp [h16, hne]
      · have hz : intShl 0x01 b = 0 := by
          unfold intShl intBits
          rw [Nat.one_shiftLeft]
          have hdvd : 2 ^ 16 ∣ 2 ^ b := Nat.pow_dvd_pow 2 (by omega)
          exact Nat.mod_eq_zero_of_dvd hdvd
        rw [hz]
        have h16 : i < 16 := by omega
        have hones : intNot 0 = 2 ^ 16 - 1 := by decide
        rw [hones, Nat.testBit_two_pow_sub_one]
        simp [h16]
    rw [hshift, hmask]
    simp [h8]
  · have hlt : orig < 2 ^ i :=
      Nat.lt_of_lt_of_le ho (by
        rw [h256]
        exact Nat.pow_le_pow_right (by decide) (by omega))
    simp [h8, Nat.testBit_lt_two_pow hlt]

/-- C11: `writeAll(x)` sets the port-A data shadow to `x & 0xFF` and the port-B
data shadow to `(x >> 8) & 0xFF`, changes no other field, and issues exactly two
register writes: GPIOA (`0x12`) with the low byte, then GPIOB (`0x13`) with the
high byte. -/
theorem writeAll_splits_and_writes_A_then_B (B : Board σ) (s : Sys σ) (x : Nat) :
    writeAll B x s =
      emits B (writeFrame s.dev.SSline s.dev.writeAddress 0x12 (x &&& 0xFF) ++
               writeFrame s.dev.SSline s.dev.writeAddress 0x13 ((x >>> 8) &&& 0xFF))
        { s with dev := { s.dev with
            copyAData := x &&& 0xFF, copyBData := (x >>> 8) &&& 0xFF } } := by
  have hlo : (x &&& 255) % 256 = x &&& 255 :=
    Nat.mod_eq_of_lt (Nat.lt_of_le_of_lt Nat.and_le_right (by decide))
  have hhi : ((x >>> 8) &&& 255) % 256 = (x >>> 8) &&& 255 :=
    Nat.mod_eq_of_lt (Nat.lt_of_le_of_lt Nat.and_le_right (by decide))
  simp [writeAll, writeReg_eq, emits_emits, emits_dev, RegGPIOA, RegGPIOB, hlo, hhi]

/-- C12: for a pin in 0..7 the one-pin `setInterruptsA` (and `setInterruptsB`)
replaces only bit `pin` of the interrupt enable, control and compare shadows by
bit 0 of the arguments and then issues exactly three register writes carrying
the new shadows, to GPINTEN, INTCON and DEFVAL in that order; the byte form
stores the three arguments as the shadows and issues the same three writes with
them. -/
theorem setInterrupts_patches_then_writes (B : Board σ) (s : Sys σ)
    (pin enable control compare : Nat) (hpin : pin ≤ 7)
    (hA : s.dev.copyAIEnable < 256 ∧ s.dev.copyAIControl < 256 ∧ s.dev.copyAIPolarity < 256)
    (hB : s.dev.copyBIEnable < 256 ∧ s.dev.copyBIControl < 256 ∧ s.dev.copyBIPolarity < 256) :
    (∃ e c d, PatchesBit s.dev.copyAIEnable pin enable e ∧
        PatchesBit s.dev.copyAIControl pin control c ∧
        PatchesBit s.dev.copyAIPolarity pin compare d ∧
        setInterruptsAPin B pin enable control compare s =
          emits B (writeFrame s.dev.SSline s.dev.writeAddress 0x04 e ++
                   writeFrame s.dev.SSline s.dev.writeAddress 0x08 c ++
                   writeFrame s.dev.SSline s.dev.writeAddress 0x06 d)
            { s with dev := { s.dev with
                copyAIEnable := e, copyAIControl := c, copyAIPolarity := d } }) ∧
    (∃ e c d, PatchesBit s.dev.copyBIEnable pin enable e ∧
        PatchesBit s.dev.copyBIControl pin control c ∧
        PatchesBit s.dev.copyBIPolarity pin compare d ∧
        setInterruptsBPin B pin enable control compare s =
          emits B (writeFrame s.dev.SSline s.dev.writeAddress 0x05 e ++
                   writeFrame s.dev.SSline s.dev.writeAddress 0x09 c ++
                   writeFrame s.dev.SSline s.dev.writeAddress 0x07 d)
            { s with dev := { s.dev with
                copyBIEnable := e, copyBIControl := c, copyBIPolarity := d } }) ∧
    setInterruptsA B enable control compare s =
      emits B (writeFrame s.dev.SSline s.dev.writeAddress 0x04 enable ++
               writeFrame s.dev.SSline s.dev.writeAddress 0x08 control ++
               writeFrame s.dev.SSline s.dev.writeAddress 0x06 compare)
        { s with dev := { s.dev with
            copyAIEnable := enable, copyAIControl := control, copyAIPolarity := compare } } ∧
    setInterruptsB B enable control compare s =
      emits B (writeFrame s.dev.SSline s.dev.writeAddress 0x05 enable ++
               writeFrame s.dev.SSline s.dev.writeAddress 0x09 control ++
               writeFrame s.dev.SSline s.dev.writeAddress 0x07 compare)
        { s with dev := { s.dev with
            copyBIEnable := enable, copyBIControl := control, copyBIPolarity := compare } } := by
  refine ⟨⟨_, _, _, setBit_patches _ enable pin hpin hA.1, setBit_patches _ control pin hpin hA.2.1,
      setBit_patches _ compare pin hpin hA.2.2, ?_⟩,
    ⟨_, _, _, setBit_patches _ enable pin hpin hB.1, setBit_patches _ control pin hpin hB.2.1,
      setBit_patches _ compare pin hpin hB.2.2, ?_⟩, ?_, ?_⟩
  · simp [setInterruptsAPin, writeReg_eq, emits_emits, emits_dev, RegGPINTENA, RegINTCONA,
      RegDEFVALA]
  · simp [setInterruptsBPin, writeReg_eq, emits_emits, emits_dev, RegGPINTENB, RegINTCONB,
      RegDEFVALB]
  · simp [setInterruptsA, writeReg_eq, emits_emits, emits_dev, RegGPINTENA, RegINTCONA,
      RegDEFVALA]
  · simp [setInterruptsB, writeReg_eq, emits_emits, emits_dev, RegGPINTENB, RegINTCONB,
      RegDEFVALB]

/-- Witness for C12: enabling the interrupt of pin 2 on the state right after
construction on the demonstration board. -/
theorem setInterrupts_patches_then_writes_witness :
    (2 : Nat) ≤ 7 ∧
    (demoSys.dev.copyAIEnable < 256 ∧ demoSys.dev.copyAIControl < 256 ∧
      demoSys.dev.copyAIPolarity < 256) ∧
    (demoSys.dev.copyBIEnable < 256 ∧ demoSys.dev.copyBIControl < 256 ∧
      demoSys.dev.copyBIPolarity < 256) ∧
    (∃ e c d, PatchesBit demoSys.dev.copyAIEnable 2 1 e ∧
        PatchesBit demoSys.dev.copyAIControl 2 1 c ∧
        PatchesBit demoSys.dev.copyAIPolarity 2 0 d ∧
        setInterruptsAPin demoBoard 2 1 1 0 demoSys =
          emits demoBoard (writeFrame demoSys.dev.SSline demoSys.dev.writeAddress 0x04 e ++
                   writeFrame demoSys.dev.SSline demoSys.dev.writeAddress 0x08 c ++
                   writeFrame demoSys.dev.SSline demoSys.dev.writeAddress 0x06 d)
            { demoSys with dev := { demoSys.dev with
                copyAIEnable := e, copyAIControl := c, copyAIPolarity := d } }) :=
  ⟨by decide, by decide, by decide,
    (setInterrupts_patches_then_writes demoBoard demoSys 2 1 1 0
      (by decide) (by decide) (by decide)).1⟩

theorem shiftRight_and_one (v pin : Nat) :
    (v >>> pin) &&& 0x01 = (v.testBit pin).toNat ∧ (v >>> pin) &&& 0x01 ≤ 1 := by
  have h : (v >>> pin) &&& 1 = (v.testBit pin).toNat := by
    rw [Nat.toNat_testBit, Nat.shiftRight_eq_div_pow]
    exact Nat.and_pow_two_sub_one_eq_mod (v / 2 ^ pin) 1
  refine ⟨h, ?_⟩
  rw [h]
  cases v.testBit pin <;> decide

/-- C14: for a pin in 0..7 the one-bit `readPortA` (and `readPortB`) issues
exactly one register read, of GPIOA `0x12` (of GPIOB `0x13`), leaves the object
unchanged and returns `(v >> pin) & 1` for the byte `v` the device returns;
that is 0 or 1 and is bit `pin` of `v`.  The result does not depend on any
shadow: an object with the same select line and read opcode gets the same
answer. -/
theorem readPortPin_returns_live_bit (B : Board σ) (s : Sys σ) (pin : Nat) (hpin : pin ≤ 7) :
    (∃ v, v = B.reply ((readHead s.dev.SSline s.dev.readAddress 0x12).foldl B.react s.chip) 0
            % 256 ∧
        (readPortAPin B pin s).1 = (v >>> pin) &&& 1 ∧
        (readPortAPin B pin s).1 = (v.testBit pin).toNat ∧
        (readPortAPin B pin s).1 ≤ 1 ∧
        (readPortAPin B pin s).2 =
          emits B (readFrame s.dev.SSline s.dev.readAddress 0x12) s) ∧
    (∃ v, v = B.reply ((readHead s.dev.SSline s.dev.readAddress 0x13).foldl B.react s.chip) 0
            % 256 ∧
        (readPortBPin B pin s).1 = (v >>> pin) &&& 1 ∧
        (readPortBPin B pin s).1 = (v.testBit pin).toNat ∧
        (readPortBPin B pin s).1 ≤ 1 ∧
        (readPortBPin B pin s).2 =
          emits B (readFrame s.dev.SSline s.dev.readAddress 0x13) s) ∧
    (∀ d : MCP23S17, d.SSline = s.dev.SSline → d.readAddress = s.dev.readAddress →
        (readPortAPin B pin { s with dev := d }).1 = (readPortAPin B pin s).1 ∧
        (readPortBPin B pin { s with dev := d }).1 = (readPortBPin B pin s).1) := by
  have hnot : ¬ pin > 7 := by omega
  have hA : ∀ t : Sys σ, (readPortAPin B pin t).1 =
      ((B.reply ((readHead t.dev.SSline t.dev.readAddress 0x12).foldl B.react t.chip) 0 % 256)
        >>> pin) &&& 1 := by
    intro t
    have hle := (shiftRight_and_one ((readReg B 0x12 t).1) pin).2
    simp only [readPortAPin, hnot, if_false, RegGPIOA]
    rw [← readReg_fst]
    exact Nat.mod_eq_of_lt (by omega)
  have hB : ∀ t : Sys σ, (readPortBPin B pin t).1 =
      ((B.reply ((readHead t.dev.SSline t.dev.readAddress 0x13).foldl B.react t.chip) 0 % 256)
        >>> pin) &&& 1 := by
    intro t
    have hle := (shiftRight_and_one ((readReg B 0x13 t).1) pin).2
    simp only [readPortBPin, hnot, if_false, RegGPIOB]
    rw [← readReg_fst]
    exact Nat.mod_eq_of_lt (by omega)
  refine ⟨⟨_, rfl, hA s, ?_, ?_, ?_⟩, ⟨_, rfl, hB s, ?_, ?_, ?_⟩, ?_⟩
  · rw [hA s]
    exact (shiftRight_and_one _ pin).1
  · rw [hA s]
    exact (shiftRight_and_one _ pin).2
  · simp only [readPortAPin, hnot, if_false, RegGPIOA]
    exact readReg_snd B 0x12 s
  · rw [hB s]
    exact (shiftRight_and_one _ pin).1
  · rw [hB s]
    exact (shiftRight_and_one _ pin).2
  · simp only [readPortBPin, hnot, if_false, RegGPIOB]
    exact readReg_snd B 0x13 s
  · intro d h1 h2
    rw [hA, hA s, hB, hB s]
    simp [h1, h2]

/-- Witness for C14: reading pin 0 of port A after `writeAll(0x0301)` on the
demonstration board returns 1, and one read frame is appended. -/
theorem readPortPin_returns_live_bit_witness :
    (0 : Nat) ≤ 7 ∧
    (∃ v, v = demoBoard.reply ((readHead (writeAll demoBoard 0x0301 demoSys).dev.SSline
              (writeAll demoBoard 0x0301 demoSys).dev.readAddress 0x12).foldl demoBoard.react
              (writeAll demoBoard 0x0301 demoSys).chip) 0 % 256 ∧
        (readPortAPin demoBoard 0 (writeAll demoBoard 0x0301 demoSys)).1 = (v >>> 0) &&& 1 ∧
        (readPortAPin demoBoard 0 (writeAll demoBoard 0x0301 demoSys)).1 = (v.testBit 0).toNat ∧
        (readPortAPin demoBoard 0 (writeAll demoBoard 0x0301 demoSys)).1 ≤ 1 ∧
        (readPortAPin demoBoard 0 (writeAll demoBoard 0x0301 demoSys)).2 =
          emits demoBoard (readFrame (writeAll demoBoard 0x0301 demoSys).dev.SSline
            (writeAll demoBoard 0x0301 demoSys).dev.readAddress 0x12)
            (writeAll demoBoard 0x0301 demoSys)) :=
  ⟨by decide,
    (readPortPin_returns_live_bit demoBoard (writeAll demoBoard 0x0301 demoSys) 0 (by decide)).1⟩

theorem setInterruptsAPin_of_ge_eight (B : Board σ) (s : Sys σ)
    (pin enable control compare : Nat) (hpin : 8 ≤ pin)
    (hA : s.dev.copyAIEnable < 256 ∧ s.dev.copyAIControl < 256 ∧ s.dev.copyAIPolarity < 256) :
    setInterruptsAPin B pin enable control compare s =
      emits B (writeFrame s.dev.SSline s.dev.writeAddress 0x04 s.dev.copyAIEnable ++
               writeFrame s.dev.SSline s.dev.writeAddress 0x08 s.dev.copyAIControl ++
               writeFrame s.dev.SSline s.dev.writeAddress 0x06 s.dev.copyAIPolarity) s := by
  simp [setInterruptsAPin, writeReg_eq, emits_emits, emits_dev, RegGPINTENA, RegINTCONA,
    RegDEFVALA, setBit_of_ge_eight _ enable pin hpin hA.1,
    setBit_of_ge_eight _ control pin hpin hA.2.1, setBit_of_ge_eight _ compare pin hpin hA.2.2]

/-- C15, as the code behaves: the one-pin `setInterruptsA` / `setInterruptsB`
have no `pin > 7` guard.  For every pin they append three write frames (fifteen
bus events); for `pin = 8` on a newly constructed object the shadows stay as
they were and the three registers are rewritten with them. -/
theorem setInterruptsPin_has_no_pin_guard (B : Board σ) (s : Sys σ)
    (pin enable control compare : Nat) :
    (setInterruptsAPin B pin enable control compare s).trace.length = s.trace.length + 15 ∧
    (setInterruptsBPin B pin enable control compare s).trace.length = s.trace.length + 15 ∧
    setInterruptsAPin B 8 1 1 1 (construct B s) =
      emits B (writeFrame B.SS 0x40 0x04 0x00 ++ writeFrame B.SS 0x40 0x08 0x00 ++
               writeFrame B.SS 0x40 0x06 0x00) (construct B s) ∧
    setupPortAPin B 8 1 1 1 (construct B s) = construct B s := by
  refine ⟨?_, ?_, ?_, ?_⟩
  · simp [setInterruptsAPin, writeReg_eq, emits, writeFrame]
  · simp [setInterruptsBPin, writeReg_eq, emits, writeFrame]
  · have h1 : (construct B s).dev.copyAIEnable = 0 := rfl
    have h2 : (construct B s).dev.copyAIControl = 0 := rfl
    have h3 : (construct B s).dev.copyAIPolarity = 0 := rfl
    have h4 : (construct B s).dev.SSline = B.SS := rfl
    have h5 : (construct B s).dev.writeAddress = 0x40 := rfl
    have h := setInterruptsAPin_of_ge_eight B (construct B s) 8 1 1 1 (Nat.le_refl 8)
      ⟨by rw [h1]; decide, by rw [h2]; decide, by rw [h3]; decide⟩
    rw [h1, h2, h3, h4, h5] at h
    exact h
  · simp [setupPortAPin]

/-- C16: for a pin in 8..15 the one-bit `writePortA` (and `writePortB`) does not
return early: the data shadow keeps its value `V` and exactly one register
write, to the port's GPIO register and carrying `V`, is issued. -/
theorem writePortPin_high_pin_rewrites_shadow (B : Board σ) (s : Sys σ) (pin data : Nat)
    (hlo : 8 ≤ pin) (hhi : pin ≤ 15) (hA : s.dev.copyAData < 256) (hB : s.dev.copyBData < 256) :
    writePortAPin B pin data s =
      emits B (writeFrame s.dev.SSline s.dev.writeAddress 0x12 s.dev.copyAData) s ∧
    writePortBPin B pin data s =
      emits B (writeFrame s.dev.SSline s.dev.writeAddress 0x13 s.dev.copyBData) s := by
  have _ := hhi
  constructor
  · simp [writePortAPin, writeReg_eq, RegGPIOA, setBit_of_ge_eight _ data pin hlo hA]
  · simp [writePortBPin, writeReg_eq, RegGPIOB, setBit_of_ge_eight _ data pin hlo hB]

/-- Witness for C16: writing a 1 to pin 9 after `writeAll(0x5AA5)` on the
demonstration board. -/
theorem writePortPin_high_pin_rewrites_shadow_witness :
    (8 : Nat) ≤ 9 ∧ (9 : Nat) ≤ 15 ∧
    (writeAll demoBoard 0x5AA5 demoSys).dev.copyAData < 256 ∧
    (writeAll demoBoard 0x5AA5 demoSys).dev.copyBData < 256 ∧
    (writePortAPin demoBoard 9 1 (writeAll demoBoard 0x5AA5 demoSys) =
      emits demoBoard (writeFrame (writeAll demoBoard 0x5AA5 demoSys).dev.SSline
        (writeAll demoBoard 0x5AA5 demoSys).dev.writeAddress 0x12
        (writeAll demoBoard 0x5AA5 demoSys).dev.copyAData) (writeAll demoBoard 0x5AA5 demoSys) ∧
     writePortBPin demoBoard 9 1 (writeAll demoBoard 0x5AA5 demoSys) =
      emits demoBoard (writeFrame (writeAll demoBoard 0x5AA5 demoSys).dev.SSline
        (writeAll demoBoard 0x5AA5 demoSys).dev.writeAddress 0x13
        (writeAll demoBoard 0x5AA5 demoSys).dev.copyBData) (writeAll demoBoard 0x5AA5 demoSys)) :=
  ⟨by decide, by decide, by decide, by decide,
    writePortPin_high_pin_rewrites_shadow demoBoard (writeAll demoBoard 0x5AA5 demoSys) 9 1
      (by decide) (by decide) (by decide) (by decide)⟩

theorem testBit_and_one_shiftLeft (x k i : Nat) :
    ((x &&& 0x01) <<< k).testBit i = (decide (i = k) && x.testBit 0) := by
  rw [Nat.testBit_shiftLeft, Nat.testBit_and]
  by_cases hlt : i < k
  · have h1 : ¬ i ≥ k := by omega
    have h2 : ¬ i = k := by omega
    simp [h1, h2]
  · by_cases heq : i = k
    · subst heq
      simp
    · have hge : i ≥ k := by omega
      have h1 : Nat.testBit 1 (i - k) = false := by
        cases hk : i - k with
        | zero => omega
        | succ n => simp [Nat.testBit_succ]
      simp [hge, heq, h1]

theorem testBit_ioconValue_mask (M : Nat)
    (hM : ∀ i, i < 8 → M.testBit i = decide (i = 0 ∨ i = 3 ∨ i = 4))
    (c mirror polarity oDrain i : Nat) :
    (((c &&& M) ||| ((mirror &&& 0x01) <<< 6) ||| ((polarity &&& 0x01) <<< 1)
        ||| ((oDrain &&& 0x01) <<< 1)) % 256).testBit i =
      (decide (i < 8) &&
        (((c.testBit i && decide (i = 0 ∨ i = 3 ∨ i = 4)) || (decide (i = 6) && mirror.testBit 0)
          || (decide (i = 1) && polarity.testBit 0)) || (decide (i = 1) && oDrain.testBit 0))) := by
  have h256 : (256 : Nat) = 2 ^ 8 := by norm_num
  rw [h256, Nat.testBit_mod_two_pow, Nat.testBit_or, Nat.testBit_or, Nat.testBit_or,
    Nat.testBit_and, testBit_and_one_shiftLeft, testBit_and_one_shiftLeft,
    testBit_and_one_shiftLeft]
  by_cases hi : i < 8
  · rw [hM i hi]
  · simp [hi]

theorem testBit_ioconValue (c mirror polarity oDrain i : Nat) :
    (((c &&& 10111001) ||| ((mirror &&& 0x01) <<< 6) ||| ((polarity &&& 0x01) <<< 1)
        ||| ((oDrain &&& 0x01) <<< 1)) % 256).testBit i =
      (decide (i < 8) &&
        (((c.testBit i && decide (i = 0 ∨ i = 3 ∨ i = 4)) || (decide (i = 6) && mirror.testBit 0)
          || (decide (i = 1) && polarity.testBit 0)) || (decide (i = 1) && oDrain.testBit 0))) :=
  testBit_ioconValue_mask 10111001 (by
    intro i hi
    interval_cases i <;> decide) c mirror polarity oDrain i

/-- C17: in `configInterrupts(mirror, polarity, oDrain)` the polarity and the
open-drain input land on the same bit: the value stored in the control shadow
and written to IOCON has bit 1 equal to `(polarity | oDrain) & 1`, bit 6 equal
to `mirror & 1` and bit 2 equal to 0, whatever `oDrain` is; a call with
`polarity` and `oDrain` swapped does exactly the same. -/
theorem configInterrupts_polarity_or_openDrain_on_bit_one (B : Board σ) (s : Sys σ)
    (mirror polarity oDrain : Nat) :
    (∃ w, configInterrupts B mirror polarity oDrain s =
          emits B (writeFrame s.dev.SSline s.dev.writeAddress 0x0A w)
            { s with dev := { s.dev with controlReg := w } } ∧
        w.testBit 1 = (polarity ||| oDrain).testBit 0 ∧
        w.testBit 6 = mirror.testBit 0 ∧
        w.testBit 2 = false) ∧
    configInterrupts B mirror oDrain polarity s = configInterrupts B mirror polarity oDrain s := by
  constructor
  · refine ⟨((s.dev.controlReg &&& 10111001) ||| ((mirror &&& 0x01) <<< 6)
        ||| ((polarity &&& 0x01) <<< 1) ||| ((oDrain &&& 0x01) <<< 1)) % 256, ?_, ?_, ?_, ?_⟩
    · simp only [configInterrupts, writeReg_eq, RegIOCON]
    · rw [testBit_ioconValue, Nat.testBit_or]
      simp
    · rw [testBit_ioconValue]
      simp
    · rw [testBit_ioconValue]
      simp
  · have hw : ((s.dev.controlReg &&& 10111001) ||| ((mirror &&& 0x01) <<< 6)
          ||| ((oDrain &&& 0x01) <<< 1) ||| ((polarity &&& 0x01) <<< 1)) % 256 =
        ((s.dev.controlReg &&& 10111001) ||| ((mirror &&& 0x01) <<< 6)
          ||| ((polarity &&& 0x01) <<< 1) ||| ((oDrain &&& 0x01) <<< 1)) % 256 := by
      rw [Nat.lor_assoc _ ((oDrain &&& 0x01) <<< 1), Nat.lor_comm ((oDrain &&& 0x01) <<< 1),
        ← Nat.lor_assoc]
    simp only [configInterrupts, hw]

/-! ## The loopback register store under register access -/

theorem loop_writeReg (ss miso : Nat) (s : Sys RegStore) (r v : Nat) (hs : Attached s) :
    (writeReg (loopBoard ss miso) r v s).chip =
      { s.chip with regs := fun x => if x = r then v else s.chip.regs x
                    selected := false, frame := [] } := by
  obtain ⟨hcs, hw, -⟩ := hs
  simp [writeReg, digitalWrite, SPI_transfer, emit, loopBoard, RegStore.react, hcs, hw]

theorem loop_readReg (ss miso : Nat) (s : Sys RegStore) (r : Nat) (hs : Attached s) :
    (readReg (loopBoard ss miso) r s).2.chip = { s.chip with selected := false, frame := [] } ∧
    (readReg (loopBoard ss miso) r s).1 = s.chip.regs r % 256 := by
  obtain ⟨hcs, -, hr⟩ := hs
  simp [readReg, digitalWrite, SPI_transfer, emit, loopBoard, RegStore.react, RegStore.reply,
    hcs, hr]

theorem setBit_comm (o a b i j : Nat) (hi : i ≤ 7) (hj : j ≤ 7) (hij : i ≠ j) :
    setBit (setBit o a i) b j = setBit (setBit o b j) a i := by
  apply Nat.eq_of_testBit_eq
  intro k
  rw [testBit_setBit _ b j k hj, testBit_setBit _ a i k hi, testBit_setBit _ a i k hi,
    testBit_setBit _ b j k hj]
  by_cases hki : k = i
  · have hkj : ¬ k = j := fun h => hij (hki.symm.trans h)
    simp [hki, hij]
  · by_cases hkj : k = j
    · simp [hkj, Ne.symm hij]
    · simp [hki, hkj]

/-- C20: one-bit writes to different pins commute.  For distinct pins `i`, `j`
in 0..7 and all `a`, `b`: `setBit (setBit o a i) b j = setBit (setBit o b j) a i`
for every `o`; `writePortA(i, a)` then `writePortA(j, b)` leaves the same object
as the other order, and against the loopback register store the GPIOA register
`0x12` ends with the same content, which is the data shadow; the same holds for
port B and `0x13`. -/
theorem writePortPin_commute (B : Board σ) (t : Sys σ) (ss miso : Nat) (s : Sys RegStore)
    (i j a b : Nat) (hi : i ≤ 7) (hj : j ≤ 7) (hij : i ≠ j) (hs : Attached s) :
    (∀ o, setBit (setBit o a i) b j = setBit (setBit o b j) a i) ∧
    ((writePortAPin B j b (writePortAPin B i a t)).dev =
        (writePortAPin B i a (writePortAPin B j b t)).dev ∧
     (writePortBPin B j b (writePortBPin B i a t)).dev =
        (writePortBPin B i a (writePortBPin B j b t)).dev) ∧
    ((writePortAPin (loopBoard ss miso) j b (writePortAPin (loopBoard ss miso) i a s)).chip.regs 0x12
        = (writePortAPin (loopBoard ss miso) i a
            (writePortAPin (loopBoard ss miso) j b s)).chip.regs 0x12 ∧
     (writePortAPin (loopBoard ss miso) j b (writePortAPin (loopBoard ss miso) i a s)).chip.regs 0x12
        = (writePortAPin (loopBoard ss miso) j b
            (writePortAPin (loopBoard ss miso) i a s)).dev.copyAData) ∧
    ((writePortBPin (loopBoard ss miso) j b (writePortBPin (loopBoard ss miso) i a s)).chip.regs 0x13
        = (writePortBPin (loopBoard ss miso) i a
            (writePortBPin (loopBoard ss miso) j b s)).chip.regs 0x13 ∧
     (writePortBPin (loopBoard ss miso) j b (writePortBPin (loopBoard ss miso) i a s)).chip.regs 0x13
        = (writePortBPin (loopBoard ss miso) j b
            (writePortBPin (loopBoard ss miso) i a s)).dev.copyBData) := by
  have hc := fun o => setBit_comm o a b i j hi hj hij
  have hregA : ∀ (p d : Nat) (u : Sys RegStore), Attached u →
      Attached (writePortAPin (loopBoard ss miso) p d u) ∧
      (writePortAPin (loopBoard ss miso) p d u).chip.regs 0x12 = setBit u.dev.copyAData d p ∧
      (writePortAPin (loopBoard ss miso) p d u).dev.copyAData = setBit u.dev.copyAData d p := by
    intro p d u hu
    have hu2 : Attached ({ u with dev := { u.dev with
        copyAData := setBit u.dev.copyAData d p } } : Sys RegStore) := hu
    have h := loop_writeReg ss miso _ RegGPIOA (setBit u.dev.copyAData d p) hu2
    refine ⟨?_, ?_, rfl⟩
    · obtain ⟨h1, h2, h3⟩ := hu
      refine ⟨?_, h2, h3⟩
      show (writeReg (loopBoard ss miso) RegGPIOA _ _).chip.cs = _
      rw [h]
      exact h1
    · show (writeReg (loopBoard ss miso) RegGPIOA _ _).chip.regs 0x12 = _
      rw [h]
      simp [RegGPIOA]
  have hregB : ∀ (p d : Nat) (u : Sys RegStore), Attached u →
      Attached (writePortBPin (loopBoard ss miso) p d u) ∧
      (writePortBPin (loopBoard ss miso) p d u).chip.regs 0x13 = setBit u.dev.copyBData d p ∧
      (writePortBPin (loopBoard ss miso) p d u).dev.copyBData = setBit u.dev.copyBData d p := by
    intro p d u hu
    have hu2 : Attached ({ u with dev := { u.dev with
        copyBData := setBit u.dev.copyBData d p } } : Sys RegStore) := hu
    have h := loop_writeReg ss miso _ RegGPIOB (setBit u.dev.copyBData d p) hu2
    refine ⟨?_, ?_, rfl⟩
    · obtain ⟨h1, h2, h3⟩ := hu
      refine ⟨?_, h2, h3⟩
      show (writeReg (loopBoard ss miso) RegGPIOB _ _).chip.cs = _
      rw [h]
      exact h1
    · show (writeReg (loopBoard ss miso) RegGPIOB _ _).chip.regs 0x13 = _
      rw [h]
      simp [RegGPIOB]
  refine ⟨hc, ⟨?_, ?_⟩, ⟨?_, ?_⟩, ⟨?_, ?_⟩⟩
  · simp [writePortAPin, writeReg_eq, emits_dev, hc]
  · simp [writePortBPin, writeReg_eq, emits_dev, hc]
  · obtain ⟨ai, _, si⟩ := hregA i a s hs
    obtain ⟨aj, _, sj⟩ := hregA j b s hs
    rw [(hregA j b _ ai).2.1, (hregA i a _ aj).2.1, si, sj]
    exact hc _
  · obtain ⟨ai, _, _⟩ := hregA i a s hs
    rw [(hregA j b _ ai).2.1, (hregA j b _ ai).2.2]
  · obtain ⟨ai, _, si⟩ := hregB i a s hs
    obtain ⟨aj, _, sj⟩ := hregB j b s hs
    rw [(hregB j b _ ai).2.1, (hregB i a _ aj).2.1, si, sj]
    exact hc _
  · obtain ⟨ai, _, _⟩ := hregB i a s hs
    rw [(hregB j b _ ai).2.1, (hregB j b _ ai).2.2]

/-- Witness for C20: pins 1 and 6 of both ports on the state right after
construction on the demonstration board. -/
theorem writePortPin_commute_witness :
    (1 : Nat) ≤ 7 ∧ (6 : Nat) ≤ 7 ∧ (1 : Nat) ≠ 6 ∧ Attached demoSys ∧
    (∀ o, setBit (setBit o 1 1) 1 6 = setBit (setBit o 1 6) 1 1) ∧
    (writePortAPin demoBoard 6 1 (writePortAPin demoBoard 1 1 demoSys)).chip.regs 0x12
        = (writePortAPin demoBoard 1 1 (writePortAPin demoBoard 6 1 demoSys)).chip.regs 0x12 :=
  ⟨by decide, by decide, by decide, by decide,
    (writePortPin_commute demoBoard demoSys 10 12 demoSys 1 6 1 1
      (by decide) (by decide) (by decide) (by decide)).1,
    (writePortPin_commute demoBoard demoSys 10 12 demoSys 1 6 1 1
      (by decide) (by decide) (by decide) (by decide)).2.2.1.1⟩

/-! ## The shadow invariant -/

theorem attached_writeReg (ss miso : Nat) (s : Sys RegStore) (r v : Nat) (hs : Attached s) :
    Attached (writeReg (loopBoard ss miso) r v s) := by
  have h := loop_writeReg ss miso s r v hs
  obtain ⟨h1, h2, h3⟩ := hs
  refine ⟨?_, h2, h3⟩
  rw [h]
  exact h1

theorem attached_readReg (ss miso : Nat) (s : Sys RegStore) (r : Nat) (hs : Attached s) :
    Attached (readReg (loopBoard ss miso) r s).2 := by
  have h := (loop_readReg ss miso s r hs).1
  obtain ⟨h1, h2, h3⟩ := hs
  refine ⟨?_, h2, h3⟩
  rw [h]
  exact h1

theorem shadows_step (ss miso : Nat) (s : Sys RegStore) (op : Op)
    (hs : Attached s) (hm : ShadowsMatch s) :
    Attached (op.run (loopBoard ss miso) s) ∧ ShadowsMatch (op.run (loopBoard ss miso) s) := by
  obtain ⟨hcs, hw, hr⟩ := hs
  obtain ⟨m0, ⟨m1, m2⟩, ⟨m3, m4⟩, ⟨m5, m6⟩, ⟨m7, m8⟩, ⟨m9, m10⟩, ⟨m11, m12⟩, ⟨m13, m14⟩⟩ := hm
  cases op <;>
    simp [Op.run, setupPortA, setupPortB, setupPortAPin, setupPortBPin, readPortA, readPortAPin,
      readPortB, readPortBPin, writePortA, writePortAPin, writePortB, writePortBPin, readAll,
      writeAll, readPortAOutputLatch, readPortBOutputLatch, setInterruptsA, setInterruptsB,
      setInterruptsAPin, setInterruptsBPin, configInterrupts, getInterruptFlagA,
      getInterruptFlagB, getInterruptCaptureA, getInterruptCaptureB,
      writeReg, readReg, digitalWrite, SPI_transfer, emit, loopBoard,
      RegStore.react, Attached, ShadowsMatch, RegIODIRA, RegIODIRB, RegIPOLA, RegIPOLB,
      RegGPINTENA, RegGPINTENB, RegDEFVALA, RegDEFVALB, RegINTCONA, RegINTCONB, RegIOCON,
      RegGPPUA, RegGPPUB, RegINTFA, RegINTFB, RegINTCAPA, RegINTCAPB, RegGPIOA, RegGPIOB,
      RegOLATA, RegOLATB, hcs, hw, hr, m0, m1, m2, m3, m4, m5, m6, m7, m8, m9, m10, m11, m12,
      m13, m14] <;>
    split <;>
    simp [hcs, hw, hr, m0, m1, m2, m3, m4, m5, m6, m7, m8, m9, m10, m11, m12, m13, m14]

theorem opcode_parity (addr : Nat) :
    (0x40 ||| ((addr &&& 0x7) <<< 1)) % 256 % 2 = 0 ∧
    (0x41 ||| ((addr &&& 0x7) <<< 1)) % 256 % 2 = 1 := by
  have hk : addr &&& 0x7 ≤ 7 := Nat.and_le_right
  generalize addr &&& 0x7 = k at hk
  interval_cases k <;> decide

theorem shadows_ctor (ss miso : Nat) (c : Ctor) (d0 : MCP23S17) (tr : List Event) :
    Attached (c.run (loopBoard ss miso)
      { dev := d0, trace := tr, chip := RegStore.powerOn (c.selectLine (loopBoard ss miso)) }) ∧
    ShadowsMatch (c.run (loopBoard ss miso)
      { dev := d0, trace := tr, chip := RegStore.powerOn (c.selectLine (loopBoard ss miso)) }) := by
  cases c with
  | plain =>
    simp [Ctor.run, Ctor.selectLine, construct, initDev, MCP23S17.fresh, writeReg, pinMode,
      digitalWrite, SPI_begin, SPI_transfer, emit, loopBoard, RegStore.react, RegStore.powerOn,
      powerOnRegs, Attached, ShadowsMatch, RegIOCON, RegIODIRA, RegIODIRB, ConfAddDisEn]
  | withSS SSpin =>
    by_cases h : SSpin = 0 <;>
    simp [Ctor.run, Ctor.selectLine, constructSS, initDev, MCP23S17.fresh, writeReg, pinMode,
      digitalWrite, SPI_begin, SPI_transfer, emit, loopBoard, RegStore.react, RegStore.powerOn,
      powerOnRegs, Attached, ShadowsMatch, RegIOCON, RegIODIRA, RegIODIRB, ConfAddDisEn, h]
  | withSSAddr SSpin addr =>
    obtain ⟨hp0, hp1⟩ := opcode_parity addr
    by_cases h : SSpin = 0 <;>
    simp [Ctor.run, Ctor.selectLine, constructSSAddr, initDev, MCP23S17.fresh, writeReg, pinMode,
      digitalWrite, SPI_begin, SPI_transfer, emit, loopBoard, RegStore.react, RegStore.powerOn,
      powerOnRegs, Attached, ShadowsMatch, RegIOCON, RegIODIRA, RegIODIRB, ConfAddEn, h, hp0, hp1]

theorem shadows_runOps (ss miso : Nat) (ops : List Op) (s : Sys RegStore)
    (hs : Attached s) (hm : ShadowsMatch s) :
    Attached (runOps (loopBoard ss miso) ops s) ∧
    ShadowsMatch (runOps (loopBoard ss miso) ops s) := by
  induction ops generalizing s with
  | nil => exact ⟨hs, hm⟩
  | cons op rest ih =>
    obtain ⟨h1, h2⟩ := shadows_step ss miso s op hs hm
    exact ih (op.run (loopBoard ss miso) s) h1 h2

/-- C13: with the chip modelled as a register store that starts at the
power-on defaults and is updated by every write frame, in every state reached
by a constructor followed by any finite sequence of public method calls with
any arguments, each of the fifteen shadows equals the content of its register
in the store. -/
theorem shadows_match_registers (ss miso : Nat) (c : Ctor) (ops : List Op)
    (d0 : MCP23S17) (tr : List Event) :
    ShadowsMatch (runOps (loopBoard ss miso) ops (c.run (loopBoard ss miso)
      { dev := d0, trace := tr,
        chip := RegStore.powerOn (c.selectLine (loopBoard ss miso)) })) := by
  obtain ⟨h1, h2⟩ := shadows_ctor ss miso c d0 tr
  exact (shadows_runOps ss miso ops _ h1 h2).2

/-! ## The bus monitor under register access -/

theorem writeReg_dev (B : Board σ) (r v : Nat) (s : Sys σ) : (writeReg B r v s).dev = s.dev := rfl

theorem readReg_dev (B : Board σ) (r : Nat) (s : Sys σ) : (readReg B r s).2.dev = s.dev := rfl

theorem mon_react_cs (c : BusMonitor) (e : Event) : (c.react e).cs = c.cs := by
  cases e with
  | pinMode pin mode => rfl
  | digitalWrite pin level =>
    cases level <;> simp only [BusMonitor.react] <;> split <;> rfl
  | spiBegin => rfl
  | transfer out =>
    simp only [BusMonitor.react]
    split
    · split <;> rfl
    · rfl

theorem mon_foldl_cs (es : List Event) (c : BusMonitor) :
    (es.foldl BusMonitor.react c).cs = c.cs := by
  induction es generalizing c with
  | nil => rfl
  | cons e rest ih =>
    rw [List.foldl_cons, ih, mon_react_cs]

theorem mon_writeReg_cs (ss miso : Nat) (s : Sys BusMonitor) (r v : Nat) :
    (writeReg (monitorBoard ss miso) r v s).chip.cs = s.chip.cs := by
  rw [writeReg_eq]
  exact mon_foldl_cs _ _

theorem mon_readReg_cs (ss miso : Nat) (s : Sys BusMonitor) (r : Nat) :
    (readReg (monitorBoard ss miso) r s).2.chip.cs = s.chip.cs := by
  rw [readReg_snd]
  exact mon_foldl_cs _ _

theorem mon_writeReg_seen (ss miso : Nat) (s : Sys BusMonitor) (r v : Nat)
    (hs : s.chip.cs = s.dev.SSline) :
    (writeReg (monitorBoard ss miso) r v s).chip.seen =
      s.chip.seen ++ [(s.dev.writeAddress, r, v)] := by
  simp [writeReg, digitalWrite, SPI_transfer, emit, monitorBoard, BusMonitor.react, hs]

theorem mon_readReg_seen (ss miso : Nat) (s : Sys BusMonitor) (r : Nat)
    (hs : s.chip.cs = s.dev.SSline) :
    (readReg (monitorBoard ss miso) r s).2.chip.seen =
      s.chip.seen ++ [(s.dev.readAddress, r, 0)] := by
  simp [readReg, digitalWrite, SPI_transfer, emit, monitorBoard, BusMonitor.react, hs]

/-! ## The control-register invariant -/

theorem controlOk_config (c : Ctor) (v mirror polarity oDrain : Nat) (h : ControlOk c v) :
    ControlOk c (((v &&& 10111001) ||| ((mirror &&& 0x01) <<< 6) ||| ((polarity &&& 0x01) <<< 1)
        ||| ((oDrain &&& 0x01) <<< 1)) % 256) := by
  obtain ⟨-, -, -, h4, -, h0, h3⟩ := h
  refine ⟨Nat.mod_lt _ (by decide), ?_, ?_, ?_, ?_, ?_, ?_⟩ <;>
    rw [testBit_ioconValue] <;> simp [h4, h0, h3]

theorem controlOk_start (c : Ctor) : ControlOk c (if c.usesAddress then 0x08 else 0x00) := by
  cases c with
  | withSSAddr SSpin addr =>
    simp [ControlOk, Ctor.usesAddress]
    decide
  | _ => simp [ControlOk, Ctor.usesAddress]

set_option maxHeartbeats 4000000 in
theorem mon_other_ops (ss miso : Nat) (s : Sys BusMonitor) (op : Op)
    (hs : s.chip.cs = s.dev.SSline) (hop : ∀ m p o, op ≠ Op.configInterrupts m p o) :
    (op.run (monitorBoard ss miso) s).chip.cs = (op.run (monitorBoard ss miso) s).dev.SSline ∧
    (op.run (monitorBoard ss miso) s).dev.controlReg = s.dev.controlReg ∧
    ∃ new, (op.run (monitorBoard ss miso) s).chip.seen = s.chip.seen ++ new ∧
      ∀ f ∈ new, f.2.1 ≠ 0x0A := by
  cases op with
  | configInterrupts m p o => exact absurd rfl (hop m p o)
  | setupPortAPin n m p i =>
    by_cases hp : 7 < n <;> simp [Op.run, setupPortAPin, hp, writeReg_dev, mon_writeReg_cs,
      mon_writeReg_seen, hs, RegIODIRA, RegGPPUA, RegIPOLA]
    intros
    omega
  | setupPortBPin n m p i =>
    by_cases hp : 7 < n <;> simp [Op.run, setupPortBPin, hp, writeReg_dev, mon_writeReg_cs,
      mon_writeReg_seen, hs, RegIODIRB, RegGPPUB, RegIPOLB]
    intros
    omega
  | readPortAPin n =>
    by_cases hp : 7 < n <;> simp [Op.run, readPortAPin, hp, readReg_dev, mon_readReg_cs,
      mon_readReg_seen, hs, RegGPIOA]
    intros
    omega
  | readPortBPin n =>
    by_cases hp : 7 < n <;> simp [Op.run, readPortBPin, hp, readReg_dev, mon_readReg_cs,
      mon_readReg_seen, hs, RegGPIOB]
    intros
    omega
  | _ =>
    simp [Op.run, setupPortA, setupPortB, readPortA, readPortB,
      writePortA, writePortAPin, writePortB, writePortBPin, readAll, writeAll,
      readPortAOutputLatch,
      readPortBOutputLatch, setInterruptsA, setInterruptsB, setInterruptsAPin,
      setInterruptsBPin, getInterruptFlagA, getInterruptFlagB, getInterruptCaptureA,
      getInterruptCaptureB, writeReg_dev, readReg_dev, mon_writeReg_cs, mon_readReg_cs,
      mon_writeReg_seen, mon_readReg_seen, hs, RegIODIRA, RegIODIRB, RegIPOLA, RegIPOLB,
      RegGPINTENA, RegGPINTENB, RegDEFVALA, RegDEFVALB, RegINTCONA, RegINTCONB,
      RegGPPUA, RegGPPUB, RegINTFA, RegINTFB, RegINTCAPA, RegINTCAPB, RegGPIOA, RegGPIOB,
      RegOLATA, RegOLATB]
    intros
    omega

theorem control_step (ss miso : Nat) (c : Ctor) (s : Sys BusMonitor) (op : Op)
    (hs : s.chip.cs = s.dev.SSline) (hc : ControlOk c s.dev.controlReg)
    (hseen : ∀ f ∈ s.chip.seen, f.2.1 = 0x0A → ControlOk c f.2.2) :
    (op.run (monitorBoard ss miso) s).chip.cs = (op.run (monitorBoard ss miso) s).dev.SSline ∧
    ControlOk c (op.run (monitorBoard ss miso) s).dev.controlReg ∧
    ∀ f ∈ (op.run (monitorBoard ss miso) s).chip.seen, f.2.1 = 0x0A → ControlOk c f.2.2 := by
  by_cases hop : ∃ m p o, op = Op.configInterrupts m p o
  · obtain ⟨m, p, o, rfl⟩ := hop
    have hk := controlOk_config c s.dev.controlReg m p o hc
    refine ⟨?_, hk, ?_⟩
    · simp [Op.run, configInterrupts, writeReg_dev, mon_writeReg_cs, hs]
    · intro f hf h10
      have hseen2 : (Op.run (monitorBoard ss miso) (Op.configInterrupts m p o) s).chip.seen =
          s.chip.seen ++ [(s.dev.writeAddress, 0x0A,
            ((s.dev.controlReg &&& 10111001) ||| ((m &&& 0x01) <<< 6) ||| ((p &&& 0x01) <<< 1)
              ||| ((o &&& 0x01) <<< 1)) % 256)] := by
        simp only [Op.run, configInterrupts, RegIOCON]
        exact mon_writeReg_seen ss miso _ _ _ hs
      rw [hseen2, List.mem_append, List.mem_singleton] at hf
      rcases hf with hf | hf
      · exact hseen f hf h10
      · rw [hf]
        exact hk
  · have hop2 : ∀ m p o, op ≠ Op.configInterrupts m p o := fun m p o h => hop ⟨m, p, o, h⟩
    obtain ⟨h1, h2, new, h3, h4⟩ := mon_other_ops ss miso s op hs hop2
    refine ⟨h1, ?_, ?_⟩
    · rw [h2]
      exact hc
    · intro f hf h10
      rw [h3, List.mem_append] at hf
      rcases hf with hf | hf
      · exact hseen f hf h10
      · exact absurd h10 (h4 f hf)

theorem control_runOps (ss miso : Nat) (c : Ctor) (ops : List Op) (s : Sys BusMonitor)
    (hs : s.chip.cs = s.dev.SSline) (hc : ControlOk c s.dev.controlReg)
    (hseen : ∀ f ∈ s.chip.seen, f.2.1 = 0x0A → ControlOk c f.2.2) :
    ControlOk c (runOps (monitorBoard ss miso) ops s).dev.controlReg ∧
    ∀ f ∈ (runOps (monitorBoard ss miso) ops s).chip.seen, f.2.1 = 0x0A → ControlOk c f.2.2 := by
  induction ops generalizing s with
  | nil => exact ⟨hc, hseen⟩
  | cons op rest ih =>
    obtain ⟨h1, h2, h3⟩ := control_step ss miso c s op hs hc hseen
    exact ih (op.run (monitorBoard ss miso) s) h1 h2 h3

theorem control_ctor (ss miso : Nat) (c : Ctor) (d0 : MCP23S17) (tr : List Event) :
    (c.run (monitorBoard ss miso)
      { dev := d0, trace := tr, chip := BusMonitor.idle (c.selectLine (monitorBoard ss miso)) }
      ).chip.cs =
    (c.run (monitorBoard ss miso)
      { dev := d0, trace := tr, chip := BusMonitor.idle (c.selectLine (monitorBoard ss miso)) }
      ).dev.SSline ∧
    (c.run (monitorBoard ss miso)
      { dev := d0, trace := tr, chip := BusMonitor.idle (c.selectLine (monitorBoard ss miso)) }
      ).dev.controlReg = (if c.usesAddress then 0x08 else 0x00) ∧
    (c.run (monitorBoard ss miso)
      { dev := d0, trace := tr, chip := BusMonitor.idle (c.selectLine (monitorBoard ss miso)) }
      ).chip.seen =
      [((c.run (monitorBoard ss miso)
          { dev := d0, trace := tr,
            chip := BusMonitor.idle (c.selectLine (monitorBoard ss miso)) }).dev.writeAddress,
        0x0A, if c.usesAddress then 0x08 else 0x00)] := by
  cases c with
  | plain =>
    simp [Ctor.run, Ctor.selectLine, Ctor.usesAddress, construct, initDev, MCP23S17.fresh,
      writeReg, pinMode, digitalWrite, SPI_begin, SPI_transfer, emit, monitorBoard,
      BusMonitor.react, BusMonitor.idle, RegIOCON, ConfAddDisEn]
  | withSS SSpin =>
    by_cases h : SSpin = 0 <;>
    simp [Ctor.run, Ctor.selectLine, Ctor.usesAddress, constructSS, initDev, MCP23S17.fresh,
      writeReg, pinMode, digitalWrite, SPI_begin, SPI_transfer, emit, monitorBoard,
      BusMonitor.react, BusMonitor.idle, RegIOCON, ConfAddDisEn, h]
  | withSSAddr SSpin addr =>
    by_cases h : SSpin = 0 <;>
    simp [Ctor.run, Ctor.selectLine, Ctor.usesAddress, constructSSAddr, initDev, MCP23S17.fresh,
      writeReg, pinMode, digitalWrite, SPI_begin, SPI_transfer, emit, monitorBoard,
      BusMonitor.react, BusMonitor.idle, RegIOCON, ConfAddEn, h]

/-- C18: in every state reached by a constructor followed by any finite
sequence of public method calls (any number of `configInterrupts` calls with any
arguments among them), the control shadow and every value a frame carried to
IOCON are bytes with bit 7 (BANK) and bits 5, 4, 2, 0 equal to 0 and bit 3
(address-pin enable) equal to 1 exactly for `MCP23S17(SSpin, addr)`; the
constructor's own IOCON write is among the frames seen.  The mask literal
`10111001` of `configInterrupts` is decimal: after the conversion to `byte` it
acts as `0x19`. -/
theorem control_register_invariant (ss miso : Nat) (c : Ctor) (ops : List Op)
    (d0 : MCP23S17) (tr : List Event) :
    ControlOk c (runOps (monitorBoard ss miso) ops (c.run (monitorBoard ss miso)
      { dev := d0, trace := tr,
        chip := BusMonitor.idle (c.selectLine (monitorBoard ss miso)) })).dev.controlReg ∧
    (∀ f ∈ (runOps (monitorBoard ss miso) ops (c.run (monitorBoard ss miso)
        { dev := d0, trace := tr,
          chip := BusMonitor.idle (c.selectLine (monitorBoard ss miso)) })).chip.seen,
      f.2.1 = 0x0A → ControlOk c f.2.2) ∧
    (∃ op, (c.run (monitorBoard ss miso)
        { dev := d0, trace := tr,
          chip := BusMonitor.idle (c.selectLine (monitorBoard ss miso)) }).chip.seen =
      [(op, 0x0A, if c.usesAddress then 0x08 else 0x00)]) ∧
    (∀ (t : Sys BusMonitor) (mirror polarity oDrain : Nat),
      (configInterrupts (monitorBoard ss miso) mirror polarity oDrain t).dev.controlReg =
        ((t.dev.controlReg &&& 0x19) ||| ((mirror &&& 0x01) <<< 6)
          ||| ((polarity &&& 0x01) <<< 1) ||| ((oDrain &&& 0x01) <<< 1)) % 256) := by
  obtain ⟨h1, h2, h3⟩ := control_ctor ss miso c d0 tr
  have hstart := controlOk_start c
  have hc : ControlOk c (c.run (monitorBoard ss miso)
      { dev := d0, trace := tr,
        chip := BusMonitor.idle (c.selectLine (monitorBoard ss miso)) }).dev.controlReg := by
    rw [h2]
    exact hstart
  have hseen : ∀ f ∈ (c.run (monitorBoard ss miso)
      { dev := d0, trace := tr,
        chip := BusMonitor.idle (c.selectLine (monitorBoard ss miso)) }).chip.seen,
      f.2.1 = 0x0A → ControlOk c f.2.2 := by
    intro f hf _
    rw [h3, List.mem_singleton] at hf
    rw [hf]
    exact hstart
  obtain ⟨k1, k2⟩ := control_runOps ss miso c ops _ h1 hc hseen
  refine ⟨k1, k2, ⟨_, h3⟩, ?_⟩
  intro t mirror polarity oDrain
  show ((t.dev.controlReg &&& 10111001) ||| ((mirror &&& 0x01) <<< 6)
          ||| ((polarity &&& 0x01) <<< 1) ||| ((oDrain &&& 0x01) <<< 1)) % 256 = _
  apply Nat.eq_of_testBit_eq
  intro i
  rw [testBit_ioconValue, testBit_ioconValue_mask 0x19 (by
    intro i hi
    interval_cases i <;> decide)]

set_option maxHeartbeats 4000000 in
/-- C19: ports are independent.  On a bus watched by a monitor, every port-A
method call (`setupPortA`, `writePortA`, `setInterruptsA` in byte and pin form,
`readPortA` in both forms, `getInterruptFlagA`, `getInterruptCaptureA`,
`readPortAOutputLatch`) leaves every port-B shadow and the control shadow
unchanged and every frame it issues addresses a port-A register, none a port-B
register or IOCON; symmetrically for the port-B calls. -/
theorem port_operations_independent (ss miso : Nat) (s : Sys BusMonitor) (op : Op)
    (hs : s.chip.cs = s.dev.SSline) :
    (op.isPortA = true →
      SamePortB (op.run (monitorBoard ss miso) s).dev s.dev ∧
      (op.run (monitorBoard ss miso) s).dev.controlReg = s.dev.controlReg ∧
      ∃ new, (op.run (monitorBoard ss miso) s).chip.seen = s.chip.seen ++ new ∧
        ∀ f ∈ new, f.2.1 ∈ portARegs ∧ f.2.1 ∉ portBRegs ∧ f.2.1 ≠ 0x0A) ∧
    (op.isPortB = true →
      SamePortA (op.run (monitorBoard ss miso) s).dev s.dev ∧
      (op.run (monitorBoard ss miso) s).dev.controlReg = s.dev.controlReg ∧
      ∃ new, (op.run (monitorBoard ss miso) s).chip.seen = s.chip.seen ++ new ∧
        ∀ f ∈ new, f.2.1 ∈ portBRegs ∧ f.2.1 ∉ portARegs ∧ f.2.1 ≠ 0x0A) := by
  cases op with
  | setupPortAPin n m p i =>
    by_cases hp : 7 < n <;> simp [Op.isPortA, Op.isPortB, Op.run, setupPortAPin, hp, writeReg_dev, readReg_dev, mon_writeReg_cs, mon_readReg_cs, mon_writeReg_seen,
      mon_readReg_seen, hs, SamePortA, SamePortB,
      portARegs, portBRegs, RegIODIRA, RegIODIRB, RegIPOLA, RegIPOLB,
      RegGPINTENA, RegGPINTENB, RegDEFVALA, RegDEFVALB, RegINTCONA, RegINTCONB,
      RegGPPUA, RegGPPUB, RegINTFA, RegINTFB, RegINTCAPA, RegINTCAPB, RegGPIOA, RegGPIOB,
      RegOLATA, RegOLATB]
    intro a r b h
    omega
  | setupPortBPin n m p i =>
    by_cases hp : 7 < n <;> simp [Op.isPortA, Op.isPortB, Op.run, setupPortBPin, hp, writeReg_dev, readReg_dev, mon_writeReg_cs, mon_readReg_cs, mon_writeReg_seen,
      mon_readReg_seen, hs, SamePortA, SamePortB,
      portARegs, portBRegs, RegIODIRA, RegIODIRB, RegIPOLA, RegIPOLB,
      RegGPINTENA, RegGPINTENB, RegDEFVALA, RegDEFVALB, RegINTCONA, RegINTCONB,
      RegGPPUA, RegGPPUB, RegINTFA, RegINTFB, RegINTCAPA, RegINTCAPB, RegGPIOA, RegGPIOB,
      RegOLATA, RegOLATB]
    intro a r b h
    omega
  | readPortAPin n =>
    by_cases hp : 7 < n <;> simp [Op.isPortA, Op.isPortB, Op.run, readPortAPin, hp, writeReg_dev, readReg_dev, mon_writeReg_cs, mon_readReg_cs, mon_writeReg_seen,
      mon_readReg_seen, hs, SamePortA, SamePortB,
      portARegs, portBRegs, RegIODIRA, RegIODIRB, RegIPOLA, RegIPOLB,
      RegGPINTENA, RegGPINTENB, RegDEFVALA, RegDEFVALB, RegINTCONA, RegINTCONB,
      RegGPPUA, RegGPPUB, RegINTFA, RegINTFB, RegINTCAPA, RegINTCAPB, RegGPIOA, RegGPIOB,
      RegOLATA, RegOLATB]
    intro a r b h
    omega
  | readPortBPin n =>
    by_cases hp : 7 < n <;> simp [Op.isPortA, Op.isPortB, Op.run, readPortBPin, hp, writeReg_dev, readReg_dev, mon_writeReg_cs, mon_readReg_cs, mon_writeReg_seen,
      mon_readReg_seen, hs, SamePortA, SamePortB,
      portARegs, portBRegs, RegIODIRA, RegIODIRB, RegIPOLA, RegIPOLB,
      RegGPINTENA, RegGPINTENB, RegDEFVALA, RegDEFVALB, RegINTCONA, RegINTCONB,
      RegGPPUA, RegGPPUB, RegINTFA, RegINTFB, RegINTCAPA, RegINTCAPB, RegGPIOA, RegGPIOB,
      RegOLATA, RegOLATB]
    intro a r b h
    omega
  | _ =>
    simp [Op.isPortA, Op.isPortB, Op.run, setupPortA, setupPortB, readPortA, readPortB,
      writePortA, writePortAPin, writePortB, writePortBPin, readPortAOutputLatch,
      readPortBOutputLatch, setInterruptsA, setInterruptsB, setInterruptsAPin,
      setInterruptsBPin, getInterruptFlagA, getInterruptFlagB, getInterruptCaptureA,
      getInterruptCaptureB, writeReg_dev, readReg_dev, mon_writeReg_cs, mon_readReg_cs, mon_writeReg_seen,
      mon_readReg_seen, hs, SamePortA, SamePortB,
      portARegs, portBRegs, RegIODIRA, RegIODIRB, RegIPOLA, RegIPOLB,
      RegGPINTENA, RegGPINTENB, RegDEFVALA, RegDEFVALB, RegINTCONA, RegINTCONB,
      RegGPPUA, RegGPPUB, RegINTFA, RegINTFB, RegINTCAPA, RegINTCAPB, RegGPIOA, RegGPIOB,
      RegOLATA, RegOLATB] <;>
    intro a r b h <;> omega

/-- Witness for C19: `writePortA(3, 1)` on a newly constructed object watched by
the bus monitor. -/
theorem port_operations_independent_witness :
    demoMonitored.chip.cs = demoMonitored.dev.SSline ∧
    ((Op.writePortAPin 3 1).isPortA = true →
      SamePortB ((Op.writePortAPin 3 1).run (monitorBoard 10 12) demoMonitored).dev
        demoMonitored.dev ∧
      ((Op.writePortAPin 3 1).run (monitorBoard 10 12) demoMonitored).dev.controlReg =
        demoMonitored.dev.controlReg ∧
      ∃ new, ((Op.writePortAPin 3 1).run (monitorBoard 10 12) demoMonitored).chip.seen =
          demoMonitored.chip.seen ++ new ∧
        ∀ f ∈ new, f.2.1 ∈ portARegs ∧ f.2.1 ∉ portBRegs ∧ f.2.1 ≠ 0x0A) :=
  ⟨by decide,
    (port_operations_independent 10 12 demoMonitored (Op.writePortAPin 3 1) (by decide)).1⟩

end MCP23S17Lib
